import Mathlib

/-!
# AsyncFile: single-operation asynchronous file reader and writer

A shallow embedding of `src/AsyncFileReader.cpp` and `src/AsyncFileWriter.cpp`.

The two classes are thin wrappers around operating-system interfaces
(`open`/`close`, `liburing`, `CreateFile`/`ReadFile`/`GetOverlappedResult`).
Those interfaces are not part of the repository; each is represented by a
small executable model over an explicit kernel state, placed in front of the
class methods that call it.  The class methods themselves are transcribed
statement by statement.

* `AsyncFile.Linux` is the `#ifdef __linux__` half of both files.
* `AsyncFile.Win32` is the `#elif _WIN32` half of both files.
-/

namespace AsyncFile

/-- One `char` of file or buffer content. -/
abbrev Byte := UInt8

/-- The exceptions the code can raise: every `throw` in the sources is a
`std::runtime_error` with a message; `new char[n]` can raise `std::bad_alloc`. -/
inductive Exception where
  | runtime_error (what : String)
  | bad_alloc
  deriving DecidableEq, Repr

/-- How a call ends: it returns a value, it leaves by an exception, it never
returns (a blocking wait for a completion that no request will produce), or the
process dies inside it (an access to memory that is no longer mapped). -/
inductive Outcome (α : Type) where
  | returned (value : α)
  | threw (e : Exception)
  | blocked
  | died
  deriving DecidableEq, Repr

/-- A `std::string_view`: a base pointer and a length. -/
structure string_view where
  data : Nat
  size : Nat
  deriving DecidableEq, Repr

/-- The bytes `[pos, pos + data.length)` of `content` replaced by `data`; a gap
between the end of `content` and `pos` reads as zero bytes. -/
def pwrite (content : List Byte) (pos : Nat) (data : List Byte) : List Byte :=
  content.take pos ++ List.replicate (pos - content.length) 0 ++ data
    ++ content.drop (pos + data.length)

/-- At most `count` bytes of `content` starting at `pos`. -/
def pread (content : List Byte) (pos : Nat) (count : Nat) : List Byte :=
  (content.drop pos).take count

/-! ## Linux: files, descriptors and the io_uring model -/

namespace Linux

def O_RDONLY : Nat := 0
def O_WRONLY : Nat := 1
def O_CREAT : Nat := 0o100
def O_TRUNC : Nat := 0o1000
def O_APPEND : Nat := 0o2000

def EINTR : Int := 4
def EIO_errno : Int := 5
def EBADF : Int := 9
def EAGAIN : Int := 11
def ENOMEM : Int := 12
def EFAULT : Int := 14
def EINVAL : Int := 22

/-- An open file description: the path it was opened on and its mode. -/
structure OpenFile where
  path : String
  readable : Bool
  writable : Bool
  append : Bool
  deriving DecidableEq, Repr

/-- A submission queue entry.  `read` carries the address of the destination
buffer; `write` carries the bytes found at the source address (the caller keeps
that memory alive and unmodified until the completion, so its content at
submission time is its content when the kernel copies it). -/
inductive Sqe where
  | nop
  | read (fd : Int) (buf : Nat) (nbytes : Nat) (offset : Nat)
  | write (fd : Int) (buf : List Byte) (nbytes : Nat) (offset : Nat)
  deriving DecidableEq, Repr

/-- A completion queue entry; `res` is the byte count or a negated errno.  Its C
type is `__s32`, so the value lies in the signed 32-bit range. -/
structure Cqe where
  res : Int
  lo : -2 ^ 31 ≤ res
  hi : res < 2 ^ 31
  deriving DecidableEq, Repr

/-- The entry the kernel posts for a request that ended with result `n`: the
value stored in the `__s32` field. -/
def Cqe.post (n : Int) : Cqe :=
  { res := (n + 2 ^ 31) % 2 ^ 32 - 2 ^ 31
    lo := by omega
    hi := by omega }

/-- The state behind a `struct io_uring`: entries obtained with
`io_uring_get_sqe` and not yet submitted, requests handed to the kernel and not
yet completed, and completions not yet marked as seen. -/
structure Ring where
  entries : Nat
  sq : List Sqe
  inflight : List Sqe
  cq : List Cqe
  deriving DecidableEq, Repr

/-- A kernel or heap resource, as recorded in the release log. -/
inductive Resource where
  | fd (n : Int)
  | ring (id : Nat)
  | buffer (p : Nat)
  deriving DecidableEq, Repr

/-- The failures the environment can answer with.  Each flag, when set, makes
the named call fail; `wait` is the number of coming blocking waits that a signal
interrupts; `limit` bounds the bytes one request transfers (a short read or
write).  `Faults.none` is an environment in which every call succeeds and every
request is transferred up to the limit the kernel itself sets (`MAX_RW_COUNT`). -/
structure Faults where
  open_ : Bool
  queue_init : Bool
  alloc : Bool
  submit : Bool
  wait : Nat
  device : Bool
  limit : Option Nat
  deriving DecidableEq, Repr

/-- The environment without failures. -/
def Faults.none : Faults :=
  { open_ := false, queue_init := false, alloc := false, submit := false, wait := 0,
    device := false, limit := Option.none }

/-- The state of the operating system and of the C heap: the content of each
file, the table of open descriptors, the file position of each descriptor
(`f_pos`, which only a request with offset `-1` uses), the live rings, the
allocated buffers with their content, the next unused identifier (descriptors,
rings and addresses are never reused), the log of every release (`close`,
`free`, `io_uring_queue_exit`) in the order it happened, and the environment. -/
structure Kernel where
  files : String → Option (List Byte)
  fds : Int → Option OpenFile
  fpos : Int → Nat
  rings : Nat → Option Ring
  heap : Nat → Option (List Byte)
  next : Nat
  released : List Resource
  faults : Faults

/-- The most bytes one read or write request transfers (`MAX_RW_COUNT`, which is
`INT_MAX & PAGE_MASK` with pages of 4096 bytes). -/
def MAX_RW_COUNT : Nat := 0x7ffff000

/-- Number of bytes the kernel transfers for a request of `n` bytes: never more
than `MAX_RW_COUNT`, and never more than the limit of the environment. -/
def Kernel.clip (k : Kernel) (n : Nat) : Nat :=
  match k.faults.limit with
  | some m => min (min n MAX_RW_COUNT) m
  | Option.none => min n MAX_RW_COUNT

/-- The file position a request with the given offset starts at: the offset
`(__u64) -1` stands for the current position of the descriptor. -/
def Kernel.position (k : Kernel) (fd : Int) (offset : Nat) : Nat :=
  if offset = 2 ^ 64 - 1 then k.fpos fd else offset

/-- The file positions after a request that ended at `pos`: only a request with
offset `(__u64) -1` moves the position of its descriptor. -/
def Kernel.advance (k : Kernel) (fd : Int) (offset : Nat) (pos : Nat) : Int → Nat :=
  if offset = 2 ^ 64 - 1 then Function.update k.fpos fd pos else k.fpos

/-- Model of `open(path, flags, mode)`: `-1` when the environment refuses or
when the file is missing and `O_CREAT` is not given; otherwise a fresh
descriptor with file position `0`.  `O_CREAT` creates a missing file empty,
`O_TRUNC` empties it. -/
def posix_open (k : Kernel) (path : String) (flags : Nat) : Int × Kernel :=
  if k.faults.open_ then (-1, k)
  else if (k.files path).isNone && (flags &&& O_CREAT == 0) then (-1, k)
  else
    let content := if flags &&& O_TRUNC != 0 then [] else (k.files path).getD []
    let fd : Int := k.next
    let f : OpenFile :=
      { path := path
        readable := flags &&& 3 != O_WRONLY
        writable := flags &&& 3 != O_RDONLY
        append := flags &&& O_APPEND != 0 }
    (fd, { k with files := Function.update k.files path (some content)
                  fds := Function.update k.fds fd (some f)
                  fpos := Function.update k.fpos fd 0
                  next := k.next + 1 })

/-- Model of `close(fd)`. -/
def posix_close (k : Kernel) (fd : Int) : Kernel :=
  { k with fds := Function.update k.fds fd Option.none
           released := k.released ++ [Resource.fd fd] }

/-- Model of `aligned_alloc(alignment, size)`: the null pointer `0` on failure,
otherwise a fresh aligned address whose `size` bytes are indeterminate (the model
fills them with `0xAA`). -/
def aligned_alloc (k : Kernel) (alignment size : Nat) : Nat × Kernel :=
  if k.faults.alloc then (0, k)
  else
    let p := alignment * (k.next + 1)
    (p, { k with heap := Function.update k.heap p (some (List.replicate size 0xAA))
                 next := k.next + 1 })

/-- Model of `memset(p, c, n)`. -/
def memset (k : Kernel) (p : Nat) (c : Byte) (n : Nat) : Kernel :=
  match k.heap p with
  | some mem => { k with heap := Function.update k.heap p (some (List.replicate n c ++ mem.drop n)) }
  | Option.none => k

/-- Model of `free(p)`. -/
def posix_free (k : Kernel) (p : Nat) : Kernel :=
  { k with heap := Function.update k.heap p Option.none
           released := k.released ++ [Resource.buffer p] }

/-- Model of `io_uring_queue_init(entries, &ring, 0)`: a negated errno on
failure, otherwise `0` and the handle stored in `ring`. -/
def io_uring_queue_init (k : Kernel) (entries : Nat) : Int × Nat × Kernel :=
  if k.faults.queue_init then (-ENOMEM, 0, k)
  else
    let id := k.next
    (0, id, { k with rings := Function.update k.rings id
                                (some { entries := entries, sq := [], inflight := [], cq := [] })
                     next := k.next + 1 })

/-- Model of `io_uring_queue_exit(&ring)`: the ring is torn down. -/
def io_uring_queue_exit (k : Kernel) (ring : Nat) : Kernel :=
  { k with rings := Function.update k.rings ring Option.none
           released := k.released ++ [Resource.ring ring] }

/-- Model of `io_uring_get_sqe(&ring)`: the index of a vacant submission entry,
or a null pointer (the inner `none`) when the submission queue is full.  The
function reads the queue memory shared with the kernel; on a ring that has been
torn down that memory is unmapped and the process dies (the outer `none`). -/
def io_uring_get_sqe (k : Kernel) (ring : Nat) : Option (Option Nat × Kernel) :=
  match k.rings ring with
  | Option.none => Option.none
  | some r =>
    if r.sq.length < r.entries then
      some (some r.sq.length,
        { k with rings := Function.update k.rings ring (some { r with sq := r.sq ++ [Sqe.nop] }) })
    else some (Option.none, k)

/-- Fill entry `sqe` of the submission queue of `ring`. -/
def Kernel.setSqe (k : Kernel) (ring : Nat) (sqe : Nat) (s : Sqe) : Kernel :=
  match k.rings ring with
  | Option.none => k
  | some r => { k with rings := Function.update k.rings ring (some { r with sq := r.sq.set sqe s }) }

/-- Model of `io_uring_prep_read(sqe, fd, buf, nbytes, offset)`.  The parameter
`nbytes` has C type `unsigned` and `offset` has type `__u64`, so the arguments
are converted modulo `2^32` and `2^64`. -/
def io_uring_prep_read (k : Kernel) (ring : Nat) (sqe : Nat) (fd : Int) (buf : Nat)
    (nbytes : Nat) (offset : Int) : Kernel :=
  k.setSqe ring sqe (Sqe.read fd buf (nbytes % 2 ^ 32) (offset % 2 ^ 64).toNat)

/-- Model of `io_uring_prep_write(sqe, fd, buf, nbytes, offset)`, with the same
parameter types as `io_uring_prep_read`. -/
def io_uring_prep_write (k : Kernel) (ring : Nat) (sqe : Nat) (fd : Int) (buf : List Byte)
    (nbytes : Nat) (offset : Int) : Kernel :=
  k.setSqe ring sqe (Sqe.write fd buf (nbytes % 2 ^ 32) (offset % 2 ^ 64).toNat)

/-- Model of `io_uring_submit(&ring)`: a negated errno when the system call
fails (the prepared entries stay in the submission queue), otherwise the number
of entries handed to the kernel.  Both classes call it only after
`io_uring_get_sqe` has returned an entry, so never on a ring that is gone; the
first branch is there to make the function total. -/
def io_uring_submit (k : Kernel) (ring : Nat) : Int × Kernel :=
  match k.rings ring with
  | Option.none => (-EBADF, k)
  | some r =>
    if k.faults.submit then (-EAGAIN, k)
    else
      (r.sq.length,
        { k with rings := Function.update k.rings ring
                            (some { r with sq := [], inflight := r.inflight ++ r.sq }) })

/-- The kernel executes a read request of `nbytes` bytes at `offset` (a `__u64`;
the value `-1` stands for the file position of the descriptor).  A request whose
start is negative as a `loff_t`, or whose end `start + nbytes` exceeds
`2^63 - 1`, is answered with `-EINVAL`.  Otherwise at most `MAX_RW_COUNT` bytes
of the file are copied to the buffer; the result is the number of bytes copied
(`0` at or past the end of the file) or a negated errno. -/
def Kernel.doRead (k : Kernel) (fd : Int) (buf nbytes offset : Nat) : Int × Kernel :=
  match k.fds fd with
  | Option.none => (-EBADF, k)
  | some f =>
    if !f.readable then (-EBADF, k)
    else if 2 ^ 63 ≤ k.position fd offset + nbytes then (-EINVAL, k)
    else if k.faults.device then (-EIO_errno, k)
    else
      match k.heap buf with
      | Option.none => (-EFAULT, k)
      | some mem =>
        let start := k.position fd offset
        let data := pread ((k.files f.path).getD []) start (k.clip nbytes)
        (data.length,
          { k with heap := Function.update k.heap buf (some (data ++ mem.drop data.length))
                   fpos := k.advance fd offset (start + data.length) })

/-- The kernel executes a write request of `nbytes` bytes at `offset`, checked
like a read request.  With `O_APPEND` the bytes go to the end of the file
whatever the offset, otherwise to the start position; at most `MAX_RW_COUNT`
bytes are written; the result is the number of bytes written or a negated
errno. -/
def Kernel.doWrite (k : Kernel) (fd : Int) (buf : List Byte) (nbytes offset : Nat) :
    Int × Kernel :=
  match k.fds fd with
  | Option.none => (-EBADF, k)
  | some f =>
    if !f.writable then (-EBADF, k)
    else if 2 ^ 63 ≤ k.position fd offset + nbytes then (-EINVAL, k)
    else if k.faults.device then (-EIO_errno, k)
    else
      let content := (k.files f.path).getD []
      let data := buf.take (k.clip nbytes)
      let pos := if f.append then content.length else k.position fd offset
      (data.length,
        { k with files := Function.update k.files f.path (some (pwrite content pos data))
                 fpos := k.advance fd offset (pos + data.length) })

/-- The kernel executes one request. -/
def Kernel.perform (k : Kernel) : Sqe → Int × Kernel
  | Sqe.nop => (0, k)
  | Sqe.read fd buf nbytes offset => k.doRead fd buf nbytes offset
  | Sqe.write fd buf nbytes offset => k.doWrite fd buf nbytes offset

/-- The kernel executes requests in order and collects their completions. -/
def Kernel.performAll (k : Kernel) : List Sqe → List Cqe × Kernel
  | [] => ([], k)
  | s :: rest =>
    let r := k.perform s
    let rs := r.2.performAll rest
    (Cqe.post r.1 :: rs.1, rs.2)

/-- The kernel completes every request in flight on `ring` and posts the
completions to its completion queue. -/
def Kernel.complete (k : Kernel) (ring : Nat) : Kernel :=
  match k.rings ring with
  | Option.none => k
  | some r =>
    let done := k.performAll r.inflight
    { done.2 with rings := Function.update done.2.rings ring
                             (some { r with inflight := [], cq := r.cq ++ done.1 }) }

/-- The oldest unseen completion of `ring`. -/
def Kernel.peek (k : Kernel) (ring : Nat) : Option Cqe :=
  match k.rings ring with
  | Option.none => Option.none
  | some r => r.cq.head?

/-- Model of `io_uring_wait_cqe(&ring, &cqe)`: the return value and the entry
`cqe` points to.  A completion already queued is returned at once.  Otherwise
the call enters the kernel: when a signal interrupts it, it fails with `-EINTR`
(`cqe` is then not set; the model leaves a zero entry) and the requests stay in
flight; else the requests in flight complete and the oldest completion is
returned.  The call does not return (`none`) when nothing is queued and nothing
is in flight, since it then blocks forever, and on a ring that has been torn
down, since it then reads queue memory that is unmapped and the process dies. -/
def io_uring_wait_cqe (k : Kernel) (ring : Nat) : Option (Int × Cqe × Kernel) :=
  match k.peek ring with
  | some c => some (0, c, k)
  | Option.none =>
    if (k.rings ring).isNone then Option.none
    else if 0 < k.faults.wait then
      some (-EINTR, Cqe.post 0,
        { k with faults := { k.faults with wait := k.faults.wait - 1 } })
    else
      match (k.complete ring).peek ring with
      | some c => some (0, c, k.complete ring)
      | Option.none => Option.none

/-- Model of `io_uring_cqe_seen(&ring, cqe)`: the oldest completion is consumed. -/
def io_uring_cqe_seen (k : Kernel) (ring : Nat) : Kernel :=
  match k.rings ring with
  | Option.none => k
  | some r => { k with rings := Function.update k.rings ring (some { r with cq := r.cq.tail }) }

/-- Model of `strerror(errnum)`; the text itself is immaterial. -/
def strerror (errnum : Int) : String :=
  "errno " ++ toString errnum

/-! ## Linux: `AsyncFileReader` -/

/-- The data members of the Linux `AsyncFileReader`: `int fd_`, `char *buffer_`
(`0` is the null pointer), `size_t buffer_size_`, `io_uring ring_` (the handle;
copying the struct copies the handle, not the ring). -/
structure AsyncFileReader where
  fd_ : Int
  buffer_ : Nat
  buffer_size_ : Nat
  ring_ : Nat
  deriving DecidableEq, Repr

/-- `void AsyncFileReader::cleanup()`. -/
def AsyncFileReader.cleanup (self : AsyncFileReader) (k : Kernel) : Kernel :=
  let k1 := if self.fd_ ≥ 0 then posix_close k self.fd_ else k
  let k2 := if self.buffer_ ≠ 0 then posix_free k1 self.buffer_ else k1
  io_uring_queue_exit k2 self.ring_

/-- `AsyncFileReader::AsyncFileReader(const std::string &path, size_t buffer_size)`.
A constructor that throws leaves no object behind, so its destructor never runs;
the kernel state at the throw is what remains. -/
def AsyncFileReader.ctor (path : String) (buffer_size : Nat) (k : Kernel) :
    Outcome AsyncFileReader × Kernel :=
  let o := posix_open k path O_RDONLY
  if o.1 < 0 then
    (Outcome.threw (Exception.runtime_error ("Failed to open file: " ++ path)), o.2)
  else
    let q := io_uring_queue_init o.2 8
    if q.1 < 0 then
      (Outcome.threw (Exception.runtime_error "io_uring init failed"), q.2.2)
    else
      let a := aligned_alloc q.2.2 4096 buffer_size
      if a.1 = 0 then
        (Outcome.threw (Exception.runtime_error "Failed to allocate buffer"), a.2)
      else
        (Outcome.returned
            { fd_ := o.1, buffer_ := a.1, buffer_size_ := buffer_size, ring_ := q.2.1 },
          memset a.2 a.1 0 buffer_size)

/-- `AsyncFileReader::AsyncFileReader(AsyncFileReader &&other) noexcept`:
the new object and what is left in `other`. -/
def AsyncFileReader.moveCtor (other : AsyncFileReader) : AsyncFileReader × AsyncFileReader :=
  ({ fd_ := other.fd_, buffer_ := other.buffer_, buffer_size_ := other.buffer_size_,
     ring_ := other.ring_ },
   { other with fd_ := -1, buffer_ := 0 })

/-- `AsyncFileReader &AsyncFileReader::operator=(AsyncFileReader &&other) noexcept`
for two distinct objects (for `this == &other` the body is skipped): the
assigned object, what is left in `other`, and the kernel after `cleanup()`. -/
def AsyncFileReader.moveAssign (self other : AsyncFileReader) (k : Kernel) :
    AsyncFileReader × AsyncFileReader × Kernel :=
  let k1 := self.cleanup k
  ({ fd_ := other.fd_, buffer_ := other.buffer_, buffer_size_ := other.buffer_size_,
     ring_ := other.ring_ },
   { other with fd_ := -1, buffer_ := 0 },
   k1)

/-- `void AsyncFileReader::readAsync(const off_t offset)`.  The value returned
by `io_uring_submit` is discarded, as in the source.  The first branch is not a
statement of the source: it is the process dying inside `io_uring_get_sqe`. -/
def AsyncFileReader.readAsync (self : AsyncFileReader) (offset : Int) (k : Kernel) :
    Outcome Unit × Kernel :=
  match io_uring_get_sqe k self.ring_ with
  | Option.none => (Outcome.died, k)
  | some (Option.none, k1) =>
    (Outcome.threw (Exception.runtime_error "Failed to get submission queue entry"), k1)
  | some (some sqe, k1) =>
    let k2 := io_uring_prep_read k1 self.ring_ sqe self.fd_ self.buffer_ self.buffer_size_ offset
    (Outcome.returned (), (io_uring_submit k2 self.ring_).2)

/-- `std::string_view AsyncFileReader::waitAndGetResult()`.  The first branch is
not a statement of the source: it is `io_uring_wait_cqe` not returning, because
the process dies in it (the ring is gone) or because it blocks forever. -/
def AsyncFileReader.waitAndGetResult (self : AsyncFileReader) (k : Kernel) :
    Outcome string_view × Kernel :=
  match io_uring_wait_cqe k self.ring_ with
  | Option.none => (if (k.rings self.ring_).isNone then Outcome.died else Outcome.blocked, k)
  | some (rc, cqe, k1) =>
    if rc < 0 then
      (Outcome.threw (Exception.runtime_error "Failed to wait for completion"), k1)
    else if cqe.res < 0 then
      (Outcome.threw (Exception.runtime_error ("Async read failed: " ++ strerror (-cqe.res))),
        io_uring_cqe_seen k1 self.ring_)
    else
      (Outcome.returned { data := self.buffer_, size := cqe.res.toNat },
        io_uring_cqe_seen k1 self.ring_)

/-- `AsyncFileReader::~AsyncFileReader()`. -/
def AsyncFileReader.dtor (self : AsyncFileReader) (k : Kernel) : Kernel :=
  self.cleanup k

/-- The data members of the Linux `AsyncFileWriter`: `int fd_`,
`const char *buffer_` (held as the bytes the pointer refers to),
`size_t buffer_size_`, `io_uring ring_`. -/
structure AsyncFileWriter where
  fd_ : Int
  buffer_ : List Byte
  buffer_size_ : Nat
  ring_ : Nat
  deriving DecidableEq, Repr

/-- `void AsyncFileWriter::cleanup()`. -/
def AsyncFileWriter.cleanup (self : AsyncFileWriter) (k : Kernel) : Kernel :=
  let k1 := if self.fd_ ≥ 0 then posix_close k self.fd_ else k
  io_uring_queue_exit k1 self.ring_

/-- `AsyncFileWriter::AsyncFileWriter(const std::string &path, const bool append)`. -/
def AsyncFileWriter.ctor (path : String) (append : Bool) (k : Kernel) :
    Outcome AsyncFileWriter × Kernel :=
  let flags := O_WRONLY ||| O_CREAT
  let flags := flags ||| (if append then O_APPEND else O_TRUNC)
  let o := posix_open k path flags
  if o.1 < 0 then
    (Outcome.threw (Exception.runtime_error ("Failed to open file for writing: " ++ path)), o.2)
  else
    let q := io_uring_queue_init o.2 8
    if q.1 < 0 then
      (Outcome.threw (Exception.runtime_error "io_uring init failed"), q.2.2)
    else
      (Outcome.returned { fd_ := o.1, buffer_ := [], buffer_size_ := 0, ring_ := q.2.1 }, q.2.2)

/-- `AsyncFileWriter::AsyncFileWriter(AsyncFileWriter &&other) noexcept`. -/
def AsyncFileWriter.moveCtor (other : AsyncFileWriter) : AsyncFileWriter × AsyncFileWriter :=
  ({ fd_ := other.fd_, buffer_ := other.buffer_, buffer_size_ := other.buffer_size_,
     ring_ := other.ring_ },
   { other with fd_ := -1, buffer_ := [] })

/-- `AsyncFileWriter &AsyncFileWriter::operator=(AsyncFileWriter &&other) noexcept`
for two distinct objects. -/
def AsyncFileWriter.moveAssign (self other : AsyncFileWriter) (k : Kernel) :
    AsyncFileWriter × AsyncFileWriter × Kernel :=
  let k1 := self.cleanup k
  ({ fd_ := other.fd_, buffer_ := other.buffer_, buffer_size_ := other.buffer_size_,
     ring_ := other.ring_ },
   { other with fd_ := -1, buffer_ := [] },
   k1)

/-- `void AsyncFileWriter::wait()`.  The first branch is not a statement of the
source: it is `io_uring_wait_cqe` not returning, because the process dies in it
(the ring is gone) or because it blocks forever. -/
def AsyncFileWriter.wait (self : AsyncFileWriter) (k : Kernel) : Outcome Unit × Kernel :=
  match io_uring_wait_cqe k self.ring_ with
  | Option.none => (if (k.rings self.ring_).isNone then Outcome.died else Outcome.blocked, k)
  | some (rc, cqe, k1) =>
    if rc < 0 then
      (Outcome.threw (Exception.runtime_error "Failed to wait for write completion"), k1)
    else if cqe.res < 0 then
      (Outcome.threw (Exception.runtime_error ("Async write failed: " ++ strerror (-cqe.res))),
        io_uring_cqe_seen k1 self.ring_)
    else
      (Outcome.returned (), io_uring_cqe_seen k1 self.ring_)

/-- `AsyncFileWriter::~AsyncFileWriter()`. -/
def AsyncFileWriter.dtor (self : AsyncFileWriter) (k : Kernel) : Kernel :=
  self.cleanup k

/-- `void AsyncFileWriter::writeAsync(const char *data, const size_t buffer_size,
const off_t offset)`: the outcome, the object with its updated members, and the
kernel.  The first branch of the match is not a statement of the source: it is
the process dying inside `io_uring_get_sqe`. -/
def AsyncFileWriter.writeAsync (self : AsyncFileWriter) (data : List Byte) (buffer_size : Nat)
    (offset : Int) (k : Kernel) : Outcome Unit × AsyncFileWriter × Kernel :=
  let self1 := { self with buffer_ := data, buffer_size_ := buffer_size }
  match io_uring_get_sqe k self1.ring_ with
  | Option.none => (Outcome.died, self1, k)
  | some (Option.none, k1) =>
    (Outcome.threw (Exception.runtime_error "Failed to get submission queue entry"), self1, k1)
  | some (some sqe, k1) =>
    let k2 := io_uring_prep_write k1 self1.ring_ sqe self1.fd_ self1.buffer_ self1.buffer_size_
      offset
    (Outcome.returned (), self1, (io_uring_submit k2 self1.ring_).2)

/-! ## Linux: call sequences -/

/-- A freshly booted system: no file, no descriptor, no ring, an empty heap, and
an environment without failures. -/
def Kernel.boot : Kernel :=
  { files := fun _ => Option.none, fds := fun _ => Option.none, fpos := fun _ => 0,
    rings := fun _ => Option.none, heap := fun _ => Option.none, next := 3, released := [],
    faults := Faults.none }

/-- A system without failures in which `path` holds `content` and nothing else
exists. -/
def Kernel.withFile (path : String) (content : List Byte) : Kernel :=
  { Kernel.boot with files := fun p => if p = path then some content else Option.none }

/-- The same system on a kernel that transfers at most `m` bytes per request. -/
def Kernel.shortTransfers (k : Kernel) (m : Nat) : Kernel :=
  { k with faults := { k.faults with limit := some m } }

/-- The same system on a kernel whose `io_uring_submit` fails. -/
def Kernel.rejecting (k : Kernel) : Kernel :=
  { k with faults := { k.faults with submit := true } }

/-- The same system on a kernel whose `io_uring_queue_init` fails. -/
def Kernel.withoutRings (k : Kernel) : Kernel :=
  { k with faults := { k.faults with queue_init := true } }

/-- The same system on a device that fails every transfer. -/
def Kernel.brokenDevice (k : Kernel) : Kernel :=
  { k with faults := { k.faults with device := true } }

/-- The same system with signals pending that interrupt the next `n` blocking
waits. -/
def Kernel.interrupted (k : Kernel) (n : Nat) : Kernel :=
  { k with faults := { k.faults with wait := n } }

/-- The completions still queued on a ring (zero for a ring that is gone). -/
def Kernel.queued (k : Kernel) (ring : Nat) : Nat :=
  match k.rings ring with
  | some r => r.cq.length
  | Option.none => 0

/-- Construct a writer on `path`, submit `data` in full at offset `0`, wait.
`none` when one of the three calls does not return normally. -/
def writeOut (path : String) (append : Bool) (data : List Byte) (k : Kernel) :
    Option (AsyncFileWriter × Kernel) :=
  match AsyncFileWriter.ctor path append k with
  | (Outcome.returned w, k1) =>
    match w.writeAsync data data.length 0 k1 with
    | (Outcome.returned _, w1, k2) =>
      match w1.wait k2 with
      | (Outcome.returned _, k3) => some (w1, k3)
      | _ => Option.none
    | _ => Option.none
  | _ => Option.none

/-- Construct a reader on `path`, submit one read at `offset`, wait for the
view.  `none` when one of the three calls does not return normally. -/
def readBack (path : String) (bufferSize : Nat) (offset : Int) (k : Kernel) :
    Option (AsyncFileReader × string_view × Kernel) :=
  match AsyncFileReader.ctor path bufferSize k with
  | (Outcome.returned r, k1) =>
    match r.readAsync offset k1 with
    | (Outcome.returned _, k2) =>
      match r.waitAndGetResult k2 with
      | (Outcome.returned v, k3) => some (r, v, k3)
      | _ => Option.none
    | _ => Option.none
  | _ => Option.none

/-- Two successive writer instances on the same path: the first writes `a` and
is destroyed, the second writes `b` and is destroyed. -/
def writeTwice (path : String) (append : Bool) (a b : List Byte) (k : Kernel) : Option Kernel :=
  match writeOut path append a k with
  | some (w1, k1) =>
    match writeOut path append b (w1.dtor k1) with
    | some (w2, k2) => some (w2.dtor k2)
    | Option.none => Option.none
  | Option.none => Option.none

/-- How `waitAndGetResult` reports a completion with result `res`. -/
def AsyncFileReader.report (self : AsyncFileReader) (res : Int) : Outcome string_view :=
  if res < 0 then
    Outcome.threw (Exception.runtime_error ("Async read failed: " ++ strerror (-res)))
  else Outcome.returned { data := self.buffer_, size := res.toNat }

/-- How `wait` reports a completion with result `res`. -/
def AsyncFileWriter.report (res : Int) : Outcome Unit :=
  if res < 0 then
    Outcome.threw (Exception.runtime_error ("Async write failed: " ++ strerror (-res)))
  else Outcome.returned ()

/-- The request `readAsync(offset)` prepares. -/
def AsyncFileReader.request (self : AsyncFileReader) (offset : Int) : Sqe :=
  Sqe.read self.fd_ self.buffer_ (self.buffer_size_ % 2 ^ 32) (offset % 2 ^ 64).toNat

/-- The request `writeAsync(data, buffer_size, offset)` prepares. -/
def AsyncFileWriter.request (self : AsyncFileWriter) (data : List Byte) (buffer_size : Nat)
    (offset : Int) : Sqe :=
  Sqe.write self.fd_ data (buffer_size % 2 ^ 32) (offset % 2 ^ 64).toNat

/-- The reader that `AsyncFileReader reader("a.bin", 4)` constructs on
`Kernel.withFile "a.bin" _`. -/
def AsyncFileReader.demo : AsyncFileReader :=
  { fd_ := 3, buffer_ := 4096 * 6, buffer_size_ := 4, ring_ := 4 }

/-- The writer that `AsyncFileWriter writer("b.bin")` constructs next. -/
def AsyncFileWriter.demo : AsyncFileWriter :=
  { fd_ := 6, buffer_ := [], buffer_size_ := 0, ring_ := 7 }

/-- The system after `AsyncFileReader reader("a.bin", 4)` and
`AsyncFileWriter writer("b.bin")`, starting from a system in which `a.bin`
holds five bytes. -/
def Kernel.demo : Kernel :=
  (AsyncFileWriter.ctor "b.bin" false
    (AsyncFileReader.ctor "a.bin" 4 (Kernel.withFile "a.bin" [10, 20, 30, 40, 50])).2).2

/-- A run of submit-then-wait pairs on one reader, one pair per offset.  For
each pair: what the wait reported and how many completions were still queued
after it. -/
def AsyncFileReader.runPairs (self : AsyncFileReader) :
    List Int → Kernel → List (Outcome string_view × Nat) × Kernel
  | [], k => ([], k)
  | offset :: rest, k =>
    let s := self.readAsync offset k
    let w := self.waitAndGetResult s.2
    let r := self.runPairs rest w.2
    ((w.1, w.2.queued self.ring_) :: r.1, r.2)

/-- The same requests executed by the kernel one after the other, each reported
the way `waitAndGetResult` reports its completion. -/
def AsyncFileReader.inOrder (self : AsyncFileReader) :
    List Int → Kernel → List (Outcome string_view × Nat) × Kernel
  | [], k => ([], k)
  | offset :: rest, k =>
    let p := k.perform (self.request offset)
    let r := self.inOrder rest p.2
    ((self.report p.1, 0) :: r.1, r.2)

/-- A run of submit-then-wait pairs on one writer, one pair per
`(data, buffer_size, offset)`. -/
def AsyncFileWriter.runPairs (self : AsyncFileWriter) :
    List (List Byte × Nat × Int) → Kernel → List (Outcome Unit × Nat) × Kernel
  | [], k => ([], k)
  | (data, n, offset) :: rest, k =>
    let s := self.writeAsync data n offset k
    let w := s.2.1.wait s.2.2
    let r := s.2.1.runPairs rest w.2
    ((w.1, w.2.queued self.ring_) :: r.1, r.2)

/-- The same write requests executed by the kernel one after the other. -/
def AsyncFileWriter.inOrder (self : AsyncFileWriter) :
    List (List Byte × Nat × Int) → Kernel → List (Outcome Unit × Nat) × Kernel
  | [], k => ([], k)
  | (data, n, offset) :: rest, k =>
    let p := k.perform (self.request data n offset)
    let r := self.inOrder rest p.2
    ((AsyncFileWriter.report p.1, 0) :: r.1, r.2)

end Linux

/-! ## Win32: handles, events and the overlapped I/O model -/

namespace Win32

def INVALID_HANDLE_VALUE : Int := -1
def GENERIC_READ : Nat := 0x80000000
def GENERIC_WRITE : Nat := 0x40000000
def FILE_SHARE_READ : Nat := 1
def CREATE_ALWAYS : Nat := 2
def OPEN_EXISTING : Nat := 3
def OPEN_ALWAYS : Nat := 4
def FILE_FLAG_OVERLAPPED : Nat := 0x40000000

def ERROR_INVALID_HANDLE : Nat := 6
def ERROR_NOT_ENOUGH_MEMORY : Nat := 8
def ERROR_HANDLE_EOF : Nat := 38
def ERROR_IO_PENDING : Nat := 997
def ERROR_IO_DEVICE : Nat := 1117

def STATUS_SUCCESS : Nat := 0
def STATUS_PENDING : Nat := 0x103
def STATUS_INVALID_HANDLE : Nat := 0xC0000008
def STATUS_END_OF_FILE : Nat := 0xC0000011
def STATUS_IO_DEVICE_ERROR : Nat := 0xC0000185

/-- What a `HANDLE` refers to. -/
inductive Object where
  | file (path : String) (readable writable : Bool)
  | event (signaled : Bool)
  deriving DecidableEq, Repr

/-- An overlapped request in flight on a file handle. -/
inductive Request where
  | read (buf : Nat) (nbytes : Nat) (offset : Nat)
  | write (buf : List Byte) (nbytes : Nat) (offset : Nat)
  deriving DecidableEq, Repr

/-- The `OVERLAPPED` structure: `Internal` is the status of the request
(`STATUS_PENDING` while it is in flight), `InternalHigh` the bytes transferred,
`Offset` and `OffsetHigh` the two halves of the file position, `hEvent` the
event handle (`0` is the null handle). -/
structure OVERLAPPED where
  Internal : Nat
  InternalHigh : Nat
  Offset : Nat
  OffsetHigh : Nat
  hEvent : Int
  deriving DecidableEq, Repr

/-- A kernel or heap resource, as recorded in the release log. -/
inductive Resource where
  | handle (h : Int)
  | buffer (p : Nat)
  deriving DecidableEq, Repr

/-- The failures the environment can answer with; `Faults.none` is an
environment in which every call succeeds and every request is transferred in
full. -/
structure Faults where
  createFile : Bool
  createEvent : Bool
  alloc : Bool
  transfer : Bool
  device : Bool
  limit : Option Nat
  deriving DecidableEq, Repr

/-- The environment without failures. -/
def Faults.none : Faults :=
  { createFile := false, createEvent := false, alloc := false, transfer := false, device := false,
    limit := Option.none }

/-- The state of the operating system and of the C++ heap: the content of each
file, the table of open handles, the overlapped request in flight on each file
handle, the allocated buffers with their content, the next unused identifier,
the log of every release (`CloseHandle`, `delete[]`), the last-error code of
the calling thread, and the environment. -/
structure Kernel where
  files : String → Option (List Byte)
  handles : Int → Option Object
  pending : Int → Option Request
  heap : Nat → Option (List Byte)
  next : Nat
  released : List Resource
  lastError : Nat
  faults : Faults

/-- Number of bytes the kernel transfers for a request of `n` bytes. -/
def Kernel.clip (k : Kernel) (n : Nat) : Nat :=
  match k.faults.limit with
  | some m => min n m
  | Option.none => n

/-- Model of `CreateFile(path, access, share, nullptr, disposition, flags, nullptr)`
(`_share` and `_flags` stand for the arguments the model does not inspect):
`INVALID_HANDLE_VALUE` when the environment refuses or when `OPEN_EXISTING`
meets a missing file; otherwise a fresh handle.  `OPEN_ALWAYS` opens the file
as it is or creates it empty, `CREATE_ALWAYS` creates it or empties it.  Sharing
modes are not modelled. -/
def CreateFile (k : Kernel) (path : String) (access _share disposition _flags : Nat) :
    Int × Kernel :=
  if k.faults.createFile then (INVALID_HANDLE_VALUE, k)
  else if (k.files path).isNone && disposition == OPEN_EXISTING then (INVALID_HANDLE_VALUE, k)
  else
    let content := if disposition == CREATE_ALWAYS then [] else (k.files path).getD []
    let h : Int := k.next + 1
    (h, { k with files := Function.update k.files path (some content)
                 handles := Function.update k.handles h
                   (some (Object.file path (access &&& GENERIC_READ != 0)
                     (access &&& GENERIC_WRITE != 0)))
                 next := k.next + 1 })

/-- Model of `CreateEvent(nullptr, bManualReset, bInitialState, nullptr)`: the
null handle `0` on failure, otherwise a fresh event handle. -/
def CreateEvent (k : Kernel) (_bManualReset bInitialState : Bool) : Int × Kernel :=
  if k.faults.createEvent then (0, k)
  else
    let h : Int := k.next + 1
    (h, { k with handles := Function.update k.handles h (some (Object.event bInitialState))
                 next := k.next + 1 })

/-- Model of `CloseHandle(h)`. -/
def CloseHandle (k : Kernel) (h : Int) : Kernel :=
  { k with handles := Function.update k.handles h Option.none
           released := k.released ++ [Resource.handle h] }

/-- Model of `ResetEvent(h)`. -/
def ResetEvent (k : Kernel) (h : Int) : Kernel :=
  match k.handles h with
  | some (Object.event _) => { k with handles := Function.update k.handles h (some (Object.event false)) }
  | _ => k

/-- Model of `new char[n]`: `none` when `std::bad_alloc` is thrown, otherwise a
fresh address whose `n` bytes are indeterminate (the model fills them with
`0xAA`). -/
def operator_new (k : Kernel) (n : Nat) : Option Nat × Kernel :=
  if k.faults.alloc then (Option.none, k)
  else
    let p := k.next + 1
    (some p, { k with heap := Function.update k.heap p (some (List.replicate n 0xAA))
                      next := k.next + 1 })

/-- Model of `delete[] p`; deleting the null pointer does nothing. -/
def operator_delete (k : Kernel) (p : Nat) : Kernel :=
  if p = 0 then k
  else { k with heap := Function.update k.heap p Option.none
                released := k.released ++ [Resource.buffer p] }

/-- Model of `GetLastError()`. -/
def GetLastError (k : Kernel) : Nat :=
  k.lastError

/-- The 64-bit file position held in an `OVERLAPPED`. -/
def OVERLAPPED.position (ov : OVERLAPPED) : Nat :=
  ov.OffsetHigh * 2 ^ 32 + ov.Offset

/-- Model of `ReadFile(hFile, buffer, nNumberOfBytesToRead, nullptr, &overlapped)`
on a handle opened with `FILE_FLAG_OVERLAPPED`: the return value and the
updated `OVERLAPPED`.  A request the kernel accepts is queued: the call returns
`FALSE` with last error `ERROR_IO_PENDING`.  The count has type `DWORD`. -/
def ReadFile (k : Kernel) (hFile : Int) (buffer : Nat) (nNumberOfBytesToRead : Nat)
    (ov : OVERLAPPED) : Bool × OVERLAPPED × Kernel :=
  match k.handles hFile with
  | some (Object.file _ true _) =>
    if k.faults.transfer then (false, ov, { k with lastError := ERROR_NOT_ENOUGH_MEMORY })
    else
      (false, { ov with Internal := STATUS_PENDING, InternalHigh := 0 },
        { k with pending := Function.update k.pending hFile
                   (some (Request.read buffer (nNumberOfBytesToRead % 2 ^ 32) ov.position))
                 lastError := ERROR_IO_PENDING })
  | _ => (false, ov, { k with lastError := ERROR_INVALID_HANDLE })

/-- Model of `WriteFile(hFile, buffer, nNumberOfBytesToWrite, nullptr, &overlapped)`,
as `ReadFile`. -/
def WriteFile (k : Kernel) (hFile : Int) (buffer : List Byte) (nNumberOfBytesToWrite : Nat)
    (ov : OVERLAPPED) : Bool × OVERLAPPED × Kernel :=
  match k.handles hFile with
  | some (Object.file _ _ true) =>
    if k.faults.transfer then (false, ov, { k with lastError := ERROR_NOT_ENOUGH_MEMORY })
    else
      (false, { ov with Internal := STATUS_PENDING, InternalHigh := 0 },
        { k with pending := Function.update k.pending hFile
                   (some (Request.write buffer (nNumberOfBytesToWrite % 2 ^ 32) ov.position))
                 lastError := ERROR_IO_PENDING })
  | _ => (false, ov, { k with lastError := ERROR_INVALID_HANDLE })

/-- The kernel executes the request in flight on `hFile`: the final status, the
bytes transferred and the new state.  A read that starts at or past the end of
the file ends with `STATUS_END_OF_FILE`; a write goes to the position given in
the `OVERLAPPED`. -/
def Kernel.perform (k : Kernel) (hFile : Int) (req : Request) : Nat × Nat × Kernel :=
  let k1 := { k with pending := Function.update k.pending hFile Option.none }
  match k.handles hFile with
  | some (Object.file path _ _) =>
    let content := (k.files path).getD []
    if k.faults.device then (STATUS_IO_DEVICE_ERROR, 0, k1)
    else
      match req with
      | Request.read buf nbytes offset =>
        if content.length ≤ offset then (STATUS_END_OF_FILE, 0, k1)
        else
          let data := pread content offset (k.clip nbytes)
          (STATUS_SUCCESS, data.length,
            { k1 with heap := Function.update k.heap buf
                        (some (data ++ ((k.heap buf).getD []).drop data.length)) })
      | Request.write buf nbytes offset =>
        let data := buf.take (k.clip nbytes)
        (STATUS_SUCCESS, data.length,
          { k1 with files := Function.update k.files path (some (pwrite content offset data)) })
  | _ => (STATUS_INVALID_HANDLE, 0, k1)

/-- The last-error code for a final status other than success. -/
def errorOfStatus (status : Nat) : Nat :=
  if status = STATUS_END_OF_FILE then ERROR_HANDLE_EOF
  else if status = STATUS_IO_DEVICE_ERROR then ERROR_IO_DEVICE
  else ERROR_INVALID_HANDLE

/-- Model of `GetOverlappedResult(hFile, &overlapped, &bytes, TRUE)`: the return
value, the byte count stored through the third argument, and the updated
`OVERLAPPED`.  While the status is `STATUS_PENDING` the call waits for the
request in flight to finish; with no such request it never returns (`none`).
A finished request reports `TRUE` and its byte count when its status is
success, and `FALSE` with the last error set otherwise. -/
def GetOverlappedResult (k : Kernel) (hFile : Int) (ov : OVERLAPPED) :
    Option (Bool × Nat × OVERLAPPED × Kernel) :=
  if ov.Internal = STATUS_PENDING then
    match k.pending hFile with
    | Option.none => Option.none
    | some req =>
      let r := k.perform hFile req
      let ov1 := { ov with Internal := r.1, InternalHigh := r.2.1 }
      if r.1 = STATUS_SUCCESS then some (true, r.2.1, ov1, r.2.2)
      else some (false, 0, ov1, { r.2.2 with lastError := errorOfStatus r.1 })
  else if ov.Internal = STATUS_SUCCESS then some (true, ov.InternalHigh, ov, k)
  else some (false, 0, ov, { k with lastError := errorOfStatus ov.Internal })

/-! ## Win32: `AsyncFileReader` -/

/-- The data members of the Win32 `AsyncFileReader`. -/
structure AsyncFileReader where
  hFile_ : Int
  buffer_ : Nat
  buffer_size_ : Nat
  overlapped_ : OVERLAPPED
  deriving DecidableEq, Repr

/-- The value of `OVERLAPPED overlapped_{}`. -/
def OVERLAPPED.zero : OVERLAPPED :=
  { Internal := 0, InternalHigh := 0, Offset := 0, OffsetHigh := 0, hEvent := 0 }

/-- `AsyncFileReader::AsyncFileReader(const std::string &path, size_t buffer_size)`. -/
def AsyncFileReader.ctor (path : String) (buffer_size : Nat) (k : Kernel) :
    Outcome AsyncFileReader × Kernel :=
  let c := CreateFile k path GENERIC_READ FILE_SHARE_READ OPEN_EXISTING FILE_FLAG_OVERLAPPED
  if c.1 = INVALID_HANDLE_VALUE then
    (Outcome.threw (Exception.runtime_error "Failed to open file for reading."), c.2)
  else
    match operator_new c.2 buffer_size with
    | (Option.none, k2) => (Outcome.threw Exception.bad_alloc, k2)
    | (some p, k2) =>
      let e := CreateEvent k2 true false
      if e.1 = 0 then
        (Outcome.threw (Exception.runtime_error "Failed to create event for async read."),
          CloseHandle e.2 c.1)
      else
        (Outcome.returned
            { hFile_ := c.1, buffer_ := p, buffer_size_ := buffer_size,
              overlapped_ := { OVERLAPPED.zero with hEvent := e.1 } },
          e.2)

/-- `void AsyncFileReader::cleanup()`: the object afterwards and the kernel. -/
def AsyncFileReader.cleanup (self : AsyncFileReader) (k : Kernel) : AsyncFileReader × Kernel :=
  let k1 := if self.overlapped_.hEvent ≠ 0 then CloseHandle k self.overlapped_.hEvent else k
  let k2 := operator_delete k1 self.buffer_
  let k3 := if self.hFile_ ≠ INVALID_HANDLE_VALUE then CloseHandle k2 self.hFile_ else k2
  ({ self with overlapped_ := { self.overlapped_ with hEvent := 0 }, buffer_ := 0,
               hFile_ := INVALID_HANDLE_VALUE },
   k3)

/-- `AsyncFileReader::~AsyncFileReader()`. -/
def AsyncFileReader.dtor (self : AsyncFileReader) (k : Kernel) : Kernel :=
  (self.cleanup k).2

/-- `AsyncFileReader::AsyncFileReader(AsyncFileReader &&other) noexcept`:
the new object and what is left in `other`. -/
def AsyncFileReader.moveCtor (other : AsyncFileReader) : AsyncFileReader × AsyncFileReader :=
  ({ hFile_ := other.hFile_, buffer_ := other.buffer_, buffer_size_ := other.buffer_size_,
     overlapped_ := other.overlapped_ },
   { other with hFile_ := INVALID_HANDLE_VALUE, buffer_ := 0,
                overlapped_ := { other.overlapped_ with hEvent := 0 } })

/-- `AsyncFileReader &AsyncFileReader::operator=(AsyncFileReader &&other) noexcept`
for two distinct objects. -/
def AsyncFileReader.moveAssign (self other : AsyncFileReader) (k : Kernel) :
    AsyncFileReader × AsyncFileReader × Kernel :=
  let k1 := (self.cleanup k).2
  ({ hFile_ := other.hFile_, buffer_ := other.buffer_, buffer_size_ := other.buffer_size_,
     overlapped_ := other.overlapped_ },
   { other with hFile_ := INVALID_HANDLE_VALUE, buffer_ := 0,
                overlapped_ := { other.overlapped_ with hEvent := 0 } },
   k1)

/-- `void AsyncFileReader::readAsync(const long long offset)`: the outcome, the
object with its updated `overlapped_`, and the kernel. -/
def AsyncFileReader.readAsync (self : AsyncFileReader) (offset : Int) (k : Kernel) :
    Outcome Unit × AsyncFileReader × Kernel :=
  let ov := { self.overlapped_ with Offset := (Int.land offset 0xFFFFFFFF).toNat % 2 ^ 32 }
  let ov := { ov with OffsetHigh := (Int.land (offset >>> 32) 0xFFFFFFFF).toNat % 2 ^ 32 }
  let k1 := ResetEvent k ov.hEvent
  let r := ReadFile k1 self.hFile_ self.buffer_ (self.buffer_size_ % 2 ^ 32) ov
  let self1 := { self with overlapped_ := r.2.1 }
  if !r.1 then
    if GetLastError r.2.2 ≠ ERROR_IO_PENDING then
      (Outcome.threw (Exception.runtime_error "ReadFile failed."), self1, r.2.2)
    else (Outcome.returned (), self1, r.2.2)
  else (Outcome.returned (), self1, r.2.2)

/-- `std::string_view AsyncFileReader::waitAndGetResult()`. -/
def AsyncFileReader.waitAndGetResult (self : AsyncFileReader) (k : Kernel) :
    Outcome string_view × AsyncFileReader × Kernel :=
  match GetOverlappedResult k self.hFile_ self.overlapped_ with
  | Option.none => (Outcome.blocked, self, k)
  | some (ok, bytesRead, ov, k1) =>
    let self1 := { self with overlapped_ := ov }
    if !ok then
      (Outcome.threw (Exception.runtime_error "GetOverlappedResult failed."), self1, k1)
    else (Outcome.returned { data := self.buffer_, size := bytesRead }, self1, k1)

/-- The data members of the Win32 `AsyncFileWriter`. -/
structure AsyncFileWriter where
  hFile_ : Int
  buffer_ : List Byte
  buffer_size_ : Nat
  overlapped_ : OVERLAPPED
  deriving DecidableEq, Repr

/-- `AsyncFileWriter::AsyncFileWriter(const std::string &path, const bool append)`. -/
def AsyncFileWriter.ctor (path : String) (append : Bool) (k : Kernel) :
    Outcome AsyncFileWriter × Kernel :=
  let c := CreateFile k path GENERIC_WRITE 0 (if append then OPEN_ALWAYS else CREATE_ALWAYS)
    FILE_FLAG_OVERLAPPED
  if c.1 = INVALID_HANDLE_VALUE then
    (Outcome.threw (Exception.runtime_error "Failed to open file for writing."), c.2)
  else
    let e := CreateEvent c.2 true false
    if e.1 = 0 then
      (Outcome.threw (Exception.runtime_error "Failed to create event for async write."),
        CloseHandle e.2 c.1)
    else
      (Outcome.returned
          { hFile_ := c.1, buffer_ := [], buffer_size_ := 0,
            overlapped_ := { OVERLAPPED.zero with hEvent := e.1 } },
        e.2)

/-- `void AsyncFileWriter::cleanup()`: the object afterwards and the kernel. -/
def AsyncFileWriter.cleanup (self : AsyncFileWriter) (k : Kernel) : AsyncFileWriter × Kernel :=
  let k1 := if self.overlapped_.hEvent ≠ 0 then CloseHandle k self.overlapped_.hEvent else k
  let k2 := if self.hFile_ ≠ INVALID_HANDLE_VALUE then CloseHandle k1 self.hFile_ else k1
  ({ self with overlapped_ := { self.overlapped_ with hEvent := 0 },
               hFile_ := INVALID_HANDLE_VALUE },
   k2)

/-- `AsyncFileWriter::~AsyncFileWriter()`. -/
def AsyncFileWriter.dtor (self : AsyncFileWriter) (k : Kernel) : Kernel :=
  (self.cleanup k).2

/-- `AsyncFileWriter::AsyncFileWriter(AsyncFileWriter &&other) noexcept`. -/
def AsyncFileWriter.moveCtor (other : AsyncFileWriter) : AsyncFileWriter × AsyncFileWriter :=
  ({ hFile_ := other.hFile_, buffer_ := other.buffer_, buffer_size_ := other.buffer_size_,
     overlapped_ := other.overlapped_ },
   { other with hFile_ := INVALID_HANDLE_VALUE, buffer_ := [],
                overlapped_ := { other.overlapped_ with hEvent := 0 } })

/-- `void AsyncFileWriter::writeAsync(const char *data, const size_t buffer_size,
const long long offset)`. -/
def AsyncFileWriter.writeAsync (self : AsyncFileWriter) (data : List Byte) (buffer_size : Nat)
    (offset : Int) (k : Kernel) : Outcome Unit × AsyncFileWriter × Kernel :=
  let self0 := { self with buffer_ := data, buffer_size_ := buffer_size }
  let ov := { self0.overlapped_ with Offset := (Int.land offset 0xFFFFFFFF).toNat % 2 ^ 32 }
  let ov := { ov with OffsetHigh := (Int.land (offset >>> 32) 0xFFFFFFFF).toNat % 2 ^ 32 }
  let k1 := ResetEvent k ov.hEvent
  let r := WriteFile k1 self0.hFile_ self0.buffer_ self0.buffer_size_ ov
  let self1 := { self0 with overlapped_ := r.2.1 }
  if !r.1 then
    if GetLastError r.2.2 ≠ ERROR_IO_PENDING then
      (Outcome.threw (Exception.runtime_error "WriteFile failed."), self1, r.2.2)
    else (Outcome.returned (), self1, r.2.2)
  else (Outcome.returned (), self1, r.2.2)

/-- `void AsyncFileWriter::wait()`; the byte count `bytesWritten` is not used. -/
def AsyncFileWriter.wait (self : AsyncFileWriter) (k : Kernel) :
    Outcome Unit × AsyncFileWriter × Kernel :=
  match GetOverlappedResult k self.hFile_ self.overlapped_ with
  | Option.none => (Outcome.blocked, self, k)
  | some (ok, _, ov, k1) =>
    let self1 := { self with overlapped_ := ov }
    if !ok then
      (Outcome.threw (Exception.runtime_error "GetOverlappedResult failed."), self1, k1)
    else (Outcome.returned (), self1, k1)

/-- `AsyncFileWriter &AsyncFileWriter::operator=(AsyncFileWriter &&other) noexcept`
for two distinct objects. -/
def AsyncFileWriter.moveAssign (self other : AsyncFileWriter) (k : Kernel) :
    AsyncFileWriter × AsyncFileWriter × Kernel :=
  let k1 := (self.cleanup k).2
  ({ hFile_ := other.hFile_, buffer_ := other.buffer_, buffer_size_ := other.buffer_size_,
     overlapped_ := other.overlapped_ },
   { other with hFile_ := INVALID_HANDLE_VALUE, buffer_ := [],
                overlapped_ := { other.overlapped_ with hEvent := 0 } },
   k1)

/-! ## Win32: call sequences -/

/-- A freshly booted system with an environment without failures. -/
def Kernel.boot : Kernel :=
  { files := fun _ => Option.none, handles := fun _ => Option.none,
    pending := fun _ => Option.none, heap := fun _ => Option.none, next := 3, released := [],
    lastError := 0, faults := Faults.none }

/-- A system without failures in which `path` holds `content` and nothing else
exists. -/
def Kernel.withFile (path : String) (content : List Byte) : Kernel :=
  { Kernel.boot with files := fun p => if p = path then some content else Option.none }

/-- The same system on a kernel whose device fails every request. -/
def Kernel.brokenDevice (k : Kernel) : Kernel :=
  { k with faults := { k.faults with device := true } }

/-- The same system on a kernel whose `CreateEvent` fails. -/
def Kernel.withoutEvents (k : Kernel) : Kernel :=
  { k with faults := { k.faults with createEvent := true } }

/-- Construct a writer on `path`, submit `data` in full at offset `0`, wait.
`none` when one of the three calls does not return normally. -/
def writeOut (path : String) (append : Bool) (data : List Byte) (k : Kernel) :
    Option (AsyncFileWriter × Kernel) :=
  match AsyncFileWriter.ctor path append k with
  | (Outcome.returned w, k1) =>
    match w.writeAsync data data.length 0 k1 with
    | (Outcome.returned _, w1, k2) =>
      match w1.wait k2 with
      | (Outcome.returned _, w2, k3) => some (w2, k3)
      | _ => Option.none
    | _ => Option.none
  | _ => Option.none

/-- Construct a reader on `path`, submit one read at `offset`, wait.  The
outcome of the wait, or `none` when the constructor or the submission does not
return normally. -/
def readBack (path : String) (bufferSize : Nat) (offset : Int) (k : Kernel) :
    Option (Outcome string_view × AsyncFileReader × Kernel) :=
  match AsyncFileReader.ctor path bufferSize k with
  | (Outcome.returned r, k1) =>
    match r.readAsync offset k1 with
    | (Outcome.returned _, r1, k2) => some (r1.waitAndGetResult k2)
    | _ => Option.none
  | _ => Option.none

/-- Two successive writer instances on the same path: the first writes `a` and
is destroyed, the second writes `b` and is destroyed. -/
def writeTwice (path : String) (append : Bool) (a b : List Byte) (k : Kernel) : Option Kernel :=
  match writeOut path append a k with
  | some (w1, k1) =>
    match writeOut path append b (w1.dtor k1) with
    | some (w2, k2) => some (w2.dtor k2)
    | Option.none => Option.none
  | Option.none => Option.none

/-- The reader that `AsyncFileReader reader("a.bin", 4)` constructs on
`Kernel.withFile "a.bin" _`. -/
def AsyncFileReader.demo : AsyncFileReader :=
  { hFile_ := 4, buffer_ := 5, buffer_size_ := 4,
    overlapped_ := { OVERLAPPED.zero with hEvent := 6 } }

/-- The writer that `AsyncFileWriter writer("b.bin")` constructs next. -/
def AsyncFileWriter.demo : AsyncFileWriter :=
  { hFile_ := 7, buffer_ := [], buffer_size_ := 0,
    overlapped_ := { OVERLAPPED.zero with hEvent := 8 } }

/-- The system after `AsyncFileReader reader("a.bin", 4)` and
`AsyncFileWriter writer("b.bin")`, starting from a system in which `a.bin`
holds five bytes. -/
def Kernel.demo : Kernel :=
  (AsyncFileWriter.ctor "b.bin" false
    (AsyncFileReader.ctor "a.bin" 4 (Kernel.withFile "a.bin" [10, 20, 30, 40, 50])).2).2

end Win32

end AsyncFile

/-! # Properties -/

namespace AsyncFile

namespace Linux

/-! ## Frame lemmas: what executing a request leaves untouched -/

theorem doRead_rings (k : Kernel) (fd : Int) (b n o : Nat) :
    (k.doRead fd b n o).2.rings = k.rings := by
  unfold Kernel.doRead
  repeat (first | rfl | split)

theorem doWrite_rings (k : Kernel) (fd : Int) (b : List Byte) (n o : Nat) :
    (k.doWrite fd b n o).2.rings = k.rings := by
  unfold Kernel.doWrite
  repeat (first | rfl | split)

theorem perform_rings (k : Kernel) (s : Sqe) : (k.perform s).2.rings = k.rings := by
  cases s
  · rfl
  · exact doRead_rings k _ _ _ _
  · exact doWrite_rings k _ _ _ _

theorem perform_faults (k : Kernel) (s : Sqe) : (k.perform s).2.faults = k.faults := by
  cases s
  · rfl
  · simp only [Kernel.perform, Kernel.doRead]
    repeat (first | rfl | split)
  · simp only [Kernel.perform, Kernel.doWrite]
    repeat (first | rfl | split)

theorem perform_setRings (k : Kernel) (R : Nat → Option Ring) (s : Sqe) :
    Kernel.perform { k with rings := R } s
      = ((k.perform s).1, { (k.perform s).2 with rings := R }) := by
  cases s with
  | nop => rfl
  | read fd b n o =>
    simp only [Kernel.perform, Kernel.doRead, Kernel.clip, Kernel.position, Kernel.advance]
    repeat (first | rfl | split)
  | write fd b n o =>
    simp only [Kernel.perform, Kernel.doWrite, Kernel.clip, Kernel.position, Kernel.advance]
    repeat (first | rfl | split)

/-! ## Results fit the completion entry -/

theorem clip_le (k : Kernel) (n : Nat) : k.clip n ≤ MAX_RW_COUNT := by
  unfold Kernel.clip
  split
  · exact le_trans (Nat.min_le_left _ _) (Nat.min_le_right _ _)
  · exact Nat.min_le_right _ _

theorem length_range (l : List Byte) (m : Nat) (hm : m ≤ MAX_RW_COUNT) (h : l.length ≤ m) :
    -2 ^ 31 ≤ (l.length : Int) ∧ (l.length : Int) < 2 ^ 31 := by
  simp only [MAX_RW_COUNT] at hm
  constructor <;> omega

theorem doRead_range (k : Kernel) (fd : Int) (b n o : Nat) :
    -2 ^ 31 ≤ (k.doRead fd b n o).1 ∧ (k.doRead fd b n o).1 < 2 ^ 31 := by
  unfold Kernel.doRead
  split
  · simp [EBADF]
  · split
    · simp [EBADF]
    · split
      · simp [EINVAL]
      · split
        · simp [EIO_errno]
        · split
          · simp [EFAULT]
          · exact length_range _ _ (clip_le k n) (List.length_take_le _ _)

theorem doWrite_range (k : Kernel) (fd : Int) (b : List Byte) (n o : Nat) :
    -2 ^ 31 ≤ (k.doWrite fd b n o).1 ∧ (k.doWrite fd b n o).1 < 2 ^ 31 := by
  unfold Kernel.doWrite
  split
  · simp [EBADF]
  · split
    · simp [EBADF]
    · split
      · simp [EINVAL]
      · split
        · simp [EIO_errno]
        · exact length_range _ _ (clip_le k n) (List.length_take_le _ _)

theorem perform_range (k : Kernel) (s : Sqe) :
    -2 ^ 31 ≤ (k.perform s).1 ∧ (k.perform s).1 < 2 ^ 31 := by
  cases s
  · simp [Kernel.perform]
  · exact doRead_range k _ _ _ _
  · exact doWrite_range k _ _ _ _

theorem post_res (n : Int) (h : -2 ^ 31 ≤ n ∧ n < 2 ^ 31) : (Cqe.post n).res = n := by
  obtain ⟨h1, h2⟩ := h
  simp only [Cqe.post]
  omega

theorem post_perform (k : Kernel) (s : Sqe) : (Cqe.post (k.perform s).1).res = (k.perform s).1 :=
  post_res _ (perform_range k s)

/-! ## One submission and one wait on an idle ring -/

theorem readAsync_idle (r : AsyncFileReader) (off : Int) (k : Kernel) (e : Nat) (he : 0 < e)
    (hr : k.rings r.ring_ = some ⟨e, [], [], []⟩) (hs : k.faults.submit = false) :
    r.readAsync off k = (Outcome.returned (),
      { k with rings := Function.update k.rings r.ring_ (some ⟨e, [], [r.request off], []⟩) }) := by
  simp [AsyncFileReader.readAsync, io_uring_get_sqe, hr, he, io_uring_prep_read, Kernel.setSqe,
    io_uring_submit, hs, AsyncFileReader.request]

theorem writeAsync_idle (w : AsyncFileWriter) (data : List Byte) (n : Nat) (off : Int)
    (k : Kernel) (e : Nat) (he : 0 < e)
    (hr : k.rings w.ring_ = some ⟨e, [], [], []⟩) (hs : k.faults.submit = false) :
    w.writeAsync data n off k = (Outcome.returned (),
      { w with buffer_ := data, buffer_size_ := n },
      { k with
        rings := Function.update k.rings w.ring_ (some ⟨e, [], [w.request data n off], []⟩) }) := by
  simp [AsyncFileWriter.writeAsync, io_uring_get_sqe, hr, he, io_uring_prep_write, Kernel.setSqe,
    io_uring_submit, hs, AsyncFileWriter.request]

theorem wait_cqe_one (k : Kernel) (ring e : Nat) (s : Sqe)
    (hr : k.rings ring = some ⟨e, [], [s], []⟩) (hw : k.faults.wait = 0) :
    io_uring_wait_cqe k ring = some (0, Cqe.post (k.perform s).1,
      { (k.perform s).2 with
        rings := Function.update k.rings ring (some ⟨e, [], [], [Cqe.post (k.perform s).1]⟩) }) := by
  simp [io_uring_wait_cqe, Kernel.peek, hr, hw, Kernel.complete, Kernel.performAll, perform_rings]

theorem restore_idle (k : Kernel) (s : Sqe) (ring e : Nat)
    (hr : k.rings ring = some ⟨e, [], [], []⟩) :
    { (k.perform s).2 with rings := Function.update k.rings ring (some ⟨e, [], [], []⟩) }
      = (k.perform s).2 := by
  have h : Function.update k.rings ring (some ⟨e, [], [], []⟩) = (k.perform s).2.rings := by
    rw [perform_rings, ← hr, Function.update_eq_self]
  rw [h]

theorem reader_wait_submitted (r : AsyncFileReader) (s : Sqe) (k : Kernel) (e : Nat)
    (hr : k.rings r.ring_ = some ⟨e, [], [], []⟩) (hw : k.faults.wait = 0) :
    r.waitAndGetResult
        { k with rings := Function.update k.rings r.ring_ (some ⟨e, [], [s], []⟩) }
      = (r.report (k.perform s).1, (k.perform s).2) := by
  have hrest := restore_idle k s r.ring_ e hr
  simp only [AsyncFileReader.waitAndGetResult]
  rw [wait_cqe_one _ r.ring_ e s (by simp) (by simpa using hw)]
  simp only [perform_setRings, AsyncFileReader.report, io_uring_cqe_seen, post_perform]
  by_cases hneg : (k.perform s).1 < 0
  · simp [hneg, hrest]
  · simp [hneg, hrest]

theorem writer_wait_submitted (w : AsyncFileWriter) (ring : Nat) (hring : w.ring_ = ring)
    (s : Sqe) (k : Kernel) (e : Nat)
    (hr : k.rings ring = some ⟨e, [], [], []⟩) (hw : k.faults.wait = 0) :
    w.wait { k with rings := Function.update k.rings ring (some ⟨e, [], [s], []⟩) }
      = (AsyncFileWriter.report (k.perform s).1, (k.perform s).2) := by
  subst hring
  have hrest := restore_idle k s w.ring_ e hr
  simp only [AsyncFileWriter.wait]
  rw [wait_cqe_one _ w.ring_ e s (by simp) (by simpa using hw)]
  simp only [perform_setRings, AsyncFileWriter.report, io_uring_cqe_seen, post_perform]
  by_cases hneg : (k.perform s).1 < 0
  · simp [hneg, hrest]
  · simp [hneg, hrest]

theorem reader_pair (r : AsyncFileReader) (off : Int) (k : Kernel) (e : Nat) (he : 0 < e)
    (hr : k.rings r.ring_ = some ⟨e, [], [], []⟩) (hs : k.faults.submit = false)
    (hw : k.faults.wait = 0) :
    r.waitAndGetResult (r.readAsync off k).2
      = (r.report (k.perform (r.request off)).1, (k.perform (r.request off)).2) := by
  rw [readAsync_idle r off k e he hr hs]
  exact reader_wait_submitted r (r.request off) k e hr hw

theorem writer_pair (w : AsyncFileWriter) (data : List Byte) (n : Nat) (off : Int) (k : Kernel)
    (e : Nat) (he : 0 < e)
    (hr : k.rings w.ring_ = some ⟨e, [], [], []⟩) (hs : k.faults.submit = false)
    (hw : k.faults.wait = 0) :
    (w.writeAsync data n off k).2.1.wait (w.writeAsync data n off k).2.2
      = (AsyncFileWriter.report (k.perform (w.request data n off)).1,
          (k.perform (w.request data n off)).2) := by
  rw [writeAsync_idle w data n off k e he hr hs]
  exact writer_wait_submitted { w with buffer_ := data, buffer_size_ := n } w.ring_ rfl
    (w.request data n off) k e hr hw

theorem queued_idle (k : Kernel) (ring e : Nat) (hr : k.rings ring = some ⟨e, [], [], []⟩) :
    k.queued ring = 0 := by
  simp [Kernel.queued, hr]

/-! ## The submit-then-wait protocol -/

theorem reader_runPairs (r : AsyncFileReader) (e : Nat) (he : 0 < e) (offsets : List Int) :
    ∀ k : Kernel, k.rings r.ring_ = some ⟨e, [], [], []⟩ → k.faults.submit = false →
      k.faults.wait = 0 →
      r.runPairs offsets k = r.inOrder offsets k ∧
        (r.runPairs offsets k).2.rings r.ring_ = some ⟨e, [], [], []⟩ := by
  induction offsets with
  | nil => intro k hr _ _; exact ⟨rfl, hr⟩
  | cons off rest ih =>
    intro k hr hs hw
    have hp := reader_pair r off k e he hr hs hw
    have hr1 : (k.perform (r.request off)).2.rings r.ring_ = some ⟨e, [], [], []⟩ := by
      rw [perform_rings]; exact hr
    have hf1 : (k.perform (r.request off)).2.faults = k.faults := perform_faults _ _
    have h := ih (k.perform (r.request off)).2 hr1 (by rw [hf1]; exact hs) (by rw [hf1]; exact hw)
    simp only [AsyncFileReader.runPairs, AsyncFileReader.inOrder, hp]
    rw [h.1, queued_idle _ _ e hr1]
    refine ⟨rfl, ?_⟩
    rw [← h.1]; exact h.2

theorem writer_inOrder_fd (w1 w2 : AsyncFileWriter) (h : w1.fd_ = w2.fd_)
    (reqs : List (List Byte × Nat × Int)) :
    ∀ k : Kernel, w1.inOrder reqs k = w2.inOrder reqs k := by
  induction reqs with
  | nil => intro k; rfl
  | cons q rest ih =>
    intro k
    obtain ⟨data, n, off⟩ := q
    simp only [AsyncFileWriter.inOrder, AsyncFileWriter.request, h, ih]

theorem writer_runPairs (e : Nat) (he : 0 < e) (reqs : List (List Byte × Nat × Int)) :
    ∀ (w : AsyncFileWriter) (k : Kernel), k.rings w.ring_ = some ⟨e, [], [], []⟩ →
      k.faults.submit = false → k.faults.wait = 0 →
      w.runPairs reqs k = w.inOrder reqs k ∧
        (w.runPairs reqs k).2.rings w.ring_ = some ⟨e, [], [], []⟩ := by
  induction reqs with
  | nil => intro w k hr _ _; exact ⟨rfl, hr⟩
  | cons q rest ih =>
    intro w k hr hs hw
    obtain ⟨data, n, off⟩ := q
    have hp := writer_pair w data n off k e he hr hs hw
    have hsub := writeAsync_idle w data n off k e he hr hs
    have hr1 : (k.perform (w.request data n off)).2.rings w.ring_ = some ⟨e, [], [], []⟩ := by
      rw [perform_rings]; exact hr
    have hf1 : (k.perform (w.request data n off)).2.faults = k.faults := perform_faults _ _
    have h := ih { w with buffer_ := data, buffer_size_ := n } (k.perform (w.request data n off)).2
      hr1 (by rw [hf1]; exact hs) (by rw [hf1]; exact hw)
    simp only [AsyncFileWriter.runPairs, AsyncFileWriter.inOrder, hp]
    rw [queued_idle _ _ e hr1]
    simp only [hsub]
    rw [h.1, writer_inOrder_fd { w with buffer_ := data, buffer_size_ := n } w rfl]
    refine ⟨rfl, ?_⟩
    rw [← writer_inOrder_fd { w with buffer_ := data, buffer_size_ := n } w rfl, ← h.1]
    exact h.2

/-! ## Constructors in an environment without failures -/

theorem writer_ctor_ok (P : String) (append : Bool) (k : Kernel)
    (ho : k.faults.open_ = false) (hq : k.faults.queue_init = false) :
    AsyncFileWriter.ctor P append k =
      (Outcome.returned ⟨k.next, [], 0, k.next + 1⟩,
        { k with
          files := Function.update k.files P
            (some (if append then (k.files P).getD [] else []))
          fds := Function.update k.fds k.next (some ⟨P, false, true, append⟩)
          fpos := Function.update k.fpos k.next 0
          rings := Function.update k.rings (k.next + 1) (some ⟨8, [], [], []⟩)
          next := k.next + 1 + 1 }) := by
  have hnn : ¬ ((k.next : Int) < 0) := by omega
  have h1 : (577 &&& 3 : Nat) = 1 := by decide
  have h2 : (577 &&& 1024 : Nat) = 0 := by decide
  have h3 : (1089 &&& 512 : Nat) = 0 := by decide
  have h4 : (1089 &&& 3 : Nat) = 1 := by decide
  have h5 : (1089 &&& 1024 : Nat) = 1024 := by decide
  cases append <;>
    simp [AsyncFileWriter.ctor, posix_open, ho, hq, io_uring_queue_init, hnn, O_WRONLY, O_CREAT,
      O_TRUNC, O_APPEND, O_RDONLY, h1, h2, h3, h4, h5]

theorem pwrite_end (c d : List Byte) : pwrite c c.length d = c ++ d := by
  simp [pwrite]

theorem pwrite_empty (d : List Byte) : pwrite [] 0 d = d := by
  simp [pwrite]

theorem position_eq (k : Kernel) (fd : Int) (off : Nat) (h : off < 2 ^ 63) :
    k.position fd off = off := by
  have hne : ¬ (off = 2 ^ 64 - 1) := by omega
  unfold Kernel.position
  rw [if_neg hne]

theorem advance_eq (k : Kernel) (fd : Int) (off : Nat) (h : off < 2 ^ 63) (p : Nat) :
    k.advance fd off p = k.fpos := by
  have hne : ¬ (off = 2 ^ 64 - 1) := by omega
  unfold Kernel.advance
  rw [if_neg hne]

theorem doWrite_ok (k : Kernel) (fd : Int) (f : OpenFile) (buf : List Byte) (n off : Nat)
    (hfd : k.fds fd = some f) (hw : f.writable = true) (hoff : off + n < 2 ^ 63)
    (hd : k.faults.device = false) (hl : k.faults.limit = Option.none) :
    k.doWrite fd buf n off =
      (((buf.take (min n MAX_RW_COUNT)).length : Int),
        { k with
          files := Function.update k.files f.path
            (some (pwrite ((k.files f.path).getD [])
              (if f.append then ((k.files f.path).getD []).length else off)
              (buf.take (min n MAX_RW_COUNT)))) }) := by
  have hoff2 : ¬ ((9223372036854775808 : Nat) ≤ off + n) := by omega
  simp [Kernel.doWrite, hfd, hw, position_eq k fd off (by omega),
    advance_eq k fd off (by omega), hoff2, hd, Kernel.clip, hl]

theorem take_min_length (S : List Byte) (m : Nat) : S.take (min S.length m) = S.take m := by
  by_cases h : S.length ≤ m
  · rw [Nat.min_eq_left h, List.take_of_length_le h, List.take_length]
  · rw [Nat.min_eq_right (by omega)]

theorem writeOut_capped (P : String) (append : Bool) (S : List Byte) (k : Kernel)
    (hf : k.faults = Faults.none) (hS : S.length < 2 ^ 32) :
    writeOut P append S k =
      some (⟨k.next, S, S.length, k.next + 1⟩,
        { k with
          files := Function.update k.files P
            (some (if append then (k.files P).getD [] ++ S.take MAX_RW_COUNT
              else S.take MAX_RW_COUNT))
          fds := Function.update k.fds k.next (some ⟨P, false, true, append⟩)
          fpos := Function.update k.fpos k.next 0
          rings := Function.update k.rings (k.next + 1) (some ⟨8, [], [], []⟩)
          next := k.next + 1 + 1 }) := by
  have hctor := writer_ctor_ok P append k (by simp [hf, Faults.none]) (by simp [hf, Faults.none])
  generalize hk1 : ({ k with
          files := Function.update k.files P
            (some (if append then (k.files P).getD [] else []))
          fds := Function.update k.fds k.next (some ⟨P, false, true, append⟩)
          fpos := Function.update k.fpos k.next 0
          rings := Function.update k.rings (k.next + 1) (some ⟨8, [], [], []⟩)
          next := k.next + 1 + 1 } : Kernel) = k1 at hctor
  have hk1f : k1.faults = Faults.none := by rw [← hk1]; exact hf
  have hring : k1.rings (k.next + 1) = some ⟨8, [], [], []⟩ := by rw [← hk1]; simp
  have hsub := writeAsync_idle ⟨k.next, [], 0, k.next + 1⟩ S S.length 0 k1 8 (by decide) hring
    (by simp [hk1f, Faults.none])
  have hwait := writer_wait_submitted ⟨k.next, S, S.length, k.next + 1⟩ (k.next + 1) rfl
    (Sqe.write k.next S S.length 0) k1 8 hring (by simp [hk1f, Faults.none])
  have hfd : k1.fds (k.next : Int) = some ⟨P, false, true, append⟩ := by rw [← hk1]; simp
  have hperf := doWrite_ok k1 k.next ⟨P, false, true, append⟩ S S.length 0 hfd rfl
    (by omega) (by simp [hk1f, Faults.none]) (by simp [hk1f, Faults.none])
  have hmod : S.length % 2 ^ 32 = S.length := Nat.mod_eq_of_lt hS
  have hnn : ¬ (((S.take MAX_RW_COUNT).length : Int) < 0) := by omega
  simp only [take_min_length] at hperf
  simp only [Kernel.perform, hperf, AsyncFileWriter.report, hnn, if_false] at hwait
  simp only [AsyncFileWriter.request, Int.zero_emod, Int.toNat_zero, hmod] at hsub
  simp only [writeOut, hctor, hsub, hwait]
  subst hk1
  cases append <;> simp [pwrite_end, pwrite_empty]

theorem writeOut_eval (P : String) (append : Bool) (S : List Byte) (k : Kernel)
    (hf : k.faults = Faults.none) (hS : S.length ≤ MAX_RW_COUNT) :
    writeOut P append S k =
      some (⟨k.next, S, S.length, k.next + 1⟩,
        { k with
          files := Function.update k.files P
            (some (if append then (k.files P).getD [] ++ S else S))
          fds := Function.update k.fds k.next (some ⟨P, false, true, append⟩)
          fpos := Function.update k.fpos k.next 0
          rings := Function.update k.rings (k.next + 1) (some ⟨8, [], [], []⟩)
          next := k.next + 1 + 1 }) := by
  have hlt : S.length < 2 ^ 32 := by
    simp only [MAX_RW_COUNT] at hS
    omega
  rw [writeOut_capped P append S k hf hlt, List.take_of_length_le hS]

/-- C9 (amended).  The submit-then-wait protocol on the ring backend.  Start
from an idle instance (nothing prepared, nothing in flight, nothing queued on
its ring) on a kernel that accepts every submission (`io_uring_submit` does not
fail) and interrupts no wait (`io_uring_wait_cqe` does not fail).  For every
sequence of submit-then-wait pairs on a reader (one per offset) and on a writer
(one per `(data, length, offset)`): the k-th wait reports exactly the completion
of the k-th request, success or failure, the requests take effect in submission
order, and after every wait, the last one included, no completion remains
queued. -/
theorem submit_wait_protocol (r : AsyncFileReader) (w : AsyncFileWriter) (kr kw : Kernel)
    (er ew : Nat) (offsets : List Int) (reqs : List (List Byte × Nat × Int))
    (hr : kr.rings r.ring_ = some ⟨er, [], [], []⟩) (her : 0 < er)
    (hw : kw.rings w.ring_ = some ⟨ew, [], [], []⟩) (hew : 0 < ew)
    (hkr : kr.faults.submit = false ∧ kr.faults.wait = 0)
    (hkw : kw.faults.submit = false ∧ kw.faults.wait = 0) :
    (r.runPairs offsets kr = r.inOrder offsets kr ∧
      (r.runPairs offsets kr).2.queued r.ring_ = 0) ∧
    (w.runPairs reqs kw = w.inOrder reqs kw ∧
      (w.runPairs reqs kw).2.queued w.ring_ = 0) := by
  have h1 := reader_runPairs r er her offsets kr hr hkr.1 hkr.2
  have h2 := writer_runPairs ew hew reqs w kw hw hkw.1 hkw.2
  exact ⟨⟨h1.1, queued_idle _ _ er h1.2⟩, ⟨h2.1, queued_idle _ _ ew h2.2⟩⟩

theorem submit_wait_protocol_witness :
    (AsyncFileReader.demo.runPairs [0, 3, 9223372036854775807, 7] Kernel.demo
        = AsyncFileReader.demo.inOrder [0, 3, 9223372036854775807, 7] Kernel.demo ∧
      (AsyncFileReader.demo.runPairs [0, 3, 9223372036854775807, 7] Kernel.demo).2.queued
        AsyncFileReader.demo.ring_ = 0) ∧
    (AsyncFileWriter.demo.runPairs [([1, 2, 3], 3, 0), ([4], 1, 1)] Kernel.demo
        = AsyncFileWriter.demo.inOrder [([1, 2, 3], 3, 0), ([4], 1, 1)] Kernel.demo ∧
      (AsyncFileWriter.demo.runPairs [([1, 2, 3], 3, 0), ([4], 1, 1)] Kernel.demo).2.queued
        AsyncFileWriter.demo.ring_ = 0) :=
  submit_wait_protocol AsyncFileReader.demo AsyncFileWriter.demo Kernel.demo Kernel.demo 8 8
    [0, 3, 9223372036854775807, 7] [([1, 2, 3], 3, 0), ([4], 1, 1)] (by decide) (by decide)
    (by decide) (by decide) (by decide) (by decide)

/-- What the pairs of the example report: four bytes at offset `0`, the two last
bytes at offset `3`, `EINVAL` for a request that would end past `2^63 - 1`, and
an empty view past the end of the file. -/
theorem submit_wait_protocol_example :
    (AsyncFileReader.demo.runPairs [0, 3, 9223372036854775807, 7] Kernel.demo).1
      = [(Outcome.returned ⟨4096 * 6, 4⟩, 0), (Outcome.returned ⟨4096 * 6, 2⟩, 0),
         (Outcome.threw (Exception.runtime_error "Async read failed: errno 22"), 0),
         (Outcome.returned ⟨4096 * 6, 0⟩, 0)] := by
  decide

/-- A request with offset `-1` reads at the file position of the descriptor and
moves it: on the five-byte file of the example, successive reads of this kind
with a four-byte buffer return four bytes, then the one byte that is left, then
nothing. -/
theorem read_at_file_position :
    (AsyncFileReader.demo.runPairs [-1, -1, -1] Kernel.demo).1
      = [(Outcome.returned ⟨4096 * 6, 4⟩, 0), (Outcome.returned ⟨4096 * 6, 1⟩, 0),
         (Outcome.returned ⟨4096 * 6, 0⟩, 0)] := by
  decide

/-- C9 as stated fails: the claim does not assume that the kernel accepts every
submission and interrupts no wait.
(1) A reader on an idle ring, a five-byte file, a four-byte buffer, pairs at
offsets `0` and `3`, and one signal that interrupts the first wait: the first
wait throws "Failed to wait for completion" and consumes nothing (the request
stays in flight); the second wait then reports four bytes, the outcome of the
first submit (its own request, at offset `3`, yields two bytes), and leaves one
completion queued.
(2) On a kernel that rejects the submission, `readAsync` returns normally and
the wait that follows never returns. -/
theorem submit_wait_protocol_counterexample :
    ((Kernel.demo.interrupted 1).rings AsyncFileReader.demo.ring_ = some ⟨8, [], [], []⟩ ∧
      (AsyncFileReader.demo.runPairs [0, 3] (Kernel.demo.interrupted 1)).1
        = [(Outcome.threw (Exception.runtime_error "Failed to wait for completion"), 0),
           (Outcome.returned ⟨4096 * 6, 4⟩, 1)] ∧
      (AsyncFileReader.demo.inOrder [0, 3] (Kernel.demo.interrupted 1)).1
        = [(Outcome.returned ⟨4096 * 6, 4⟩, 0), (Outcome.returned ⟨4096 * 6, 2⟩, 0)] ∧
      (AsyncFileReader.demo.runPairs [0, 3] (Kernel.demo.interrupted 1)).2.queued
        AsyncFileReader.demo.ring_ = 1) ∧
    (Kernel.demo.rejecting.rings AsyncFileReader.demo.ring_ = some ⟨8, [], [], []⟩ ∧
      (AsyncFileReader.demo.readAsync 0 Kernel.demo.rejecting).1 = Outcome.returned () ∧
      (AsyncFileReader.demo.runPairs [0] Kernel.demo.rejecting).1 = [(Outcome.blocked, 0)]) := by
  refine ⟨⟨by decide, by decide, by decide, by decide⟩, by decide, by decide, by decide⟩

end Linux

end AsyncFile

namespace AsyncFile

/-! ## The example states -/

theorem linux_demo_constructed :
    (Linux.AsyncFileReader.ctor "a.bin" 4 (Linux.Kernel.withFile "a.bin" [10, 20, 30, 40, 50])).1
        = Outcome.returned Linux.AsyncFileReader.demo ∧
      (Linux.AsyncFileWriter.ctor "b.bin" false
          (Linux.AsyncFileReader.ctor "a.bin" 4
            (Linux.Kernel.withFile "a.bin" [10, 20, 30, 40, 50])).2).1
        = Outcome.returned Linux.AsyncFileWriter.demo := by
  refine ⟨by decide, by decide⟩

theorem win32_demo_constructed :
    (Win32.AsyncFileReader.ctor "a.bin" 4 (Win32.Kernel.withFile "a.bin" [10, 20, 30, 40, 50])).1
        = Outcome.returned Win32.AsyncFileReader.demo ∧
      (Win32.AsyncFileWriter.ctor "b.bin" false
          (Win32.AsyncFileReader.ctor "a.bin" 4
            (Win32.Kernel.withFile "a.bin" [10, 20, 30, 40, 50])).2).1
        = Outcome.returned Win32.AsyncFileWriter.demo := by
  refine ⟨by decide, by decide⟩

/-! ## What a wait reports -/

theorem doRead_le (k : Linux.Kernel) (fd : Int) (buf n off : Nat) :
    (k.doRead fd buf n off).1 ≤ n := by
  unfold Linux.Kernel.doRead
  split
  · simp [Linux.EBADF]; omega
  · split
    · simp [Linux.EBADF]; omega
    · split
      · simp [Linux.EINVAL]; omega
      · split
        · simp [Linux.EIO_errno]; omega
        · split
          · simp [Linux.EFAULT]; omega
          · simp only [pread, List.length_take, Linux.Kernel.clip]
            split <;> omega

theorem win32_read_le (q : Win32.Kernel) (h : Int) (buf n off : Nat) :
    (q.perform h (Win32.Request.read buf n off)).2.1 ≤ n := by
  unfold Win32.Kernel.perform
  split
  · split
    · simp
    · simp only
      split
      · simp
      · simp only [pread, List.length_take, Win32.Kernel.clip]
        split <;> omega
  · simp

/-- The result the kernel computes for a request of a reader never exceeds the
buffer size of that reader, on either backend. -/
theorem read_result_le (r : Linux.AsyncFileReader) (r2 : Win32.AsyncFileReader) :
    (∀ (k : Linux.Kernel) (offset : Int), (k.perform (r.request offset)).1 ≤ r.buffer_size_) ∧
      (∀ (q : Win32.Kernel) (position : Nat),
        (q.perform r2.hFile_
          (Win32.Request.read r2.buffer_ (r2.buffer_size_ % 2 ^ 32) position)).2.1
            ≤ r2.buffer_size_) := by
  refine ⟨?_, ?_⟩
  · intro k offset
    have h := doRead_le k r.fd_ r.buffer_ (r.buffer_size_ % 2 ^ 32) (offset % 2 ^ 64).toNat
    have hm : r.buffer_size_ % 2 ^ 32 ≤ r.buffer_size_ := Nat.mod_le _ _
    simp only [Linux.AsyncFileReader.request, Linux.Kernel.perform]
    omega
  · intro q position
    have h := win32_read_le q r2.hFile_ r2.buffer_ (r2.buffer_size_ % 2 ^ 32) position
    have hm : r2.buffer_size_ % 2 ^ 32 ≤ r2.buffer_size_ := Nat.mod_le _ _
    omega

/-- What `waitAndGetResult` makes of a completion.  Ring backend: when
`io_uring_wait_cqe` hands over a completion with result `res`, the call returns
the view that starts at the owned buffer and spans `res` bytes when `res ≥ 0`
(zero included), and throws `"Async read failed: " ++ strerror(-res)` exactly
when `res < 0`; either way the completion is consumed.  Handle-and-event
backend: when `GetOverlappedResult` reports success with `n` bytes the call
returns the view of `n` bytes at the owned buffer, and when it reports failure
the call throws the fixed message `"GetOverlappedResult failed."`, whatever the
error. -/
theorem wait_result (r : Linux.AsyncFileReader) (k k1 : Linux.Kernel) (c : Linux.Cqe)
    (r2 : Win32.AsyncFileReader) (q q1 : Win32.Kernel) (ok : Bool) (n : Nat)
    (ov : Win32.OVERLAPPED)
    (h1 : Linux.io_uring_wait_cqe k r.ring_ = some (0, c, k1))
    (h2 : Win32.GetOverlappedResult q r2.hFile_ r2.overlapped_ = some (ok, n, ov, q1)) :
    r.waitAndGetResult k =
        (if c.res < 0 then
            Outcome.threw
              (Exception.runtime_error ("Async read failed: " ++ Linux.strerror (-c.res)))
          else Outcome.returned ⟨r.buffer_, c.res.toNat⟩,
          Linux.io_uring_cqe_seen k1 r.ring_) ∧
      (r2.waitAndGetResult q).1 =
        (if ok then Outcome.returned ⟨r2.buffer_, n⟩
          else Outcome.threw (Exception.runtime_error "GetOverlappedResult failed.")) := by
  refine ⟨?_, ?_⟩
  · simp only [Linux.AsyncFileReader.waitAndGetResult, h1]
    by_cases hneg : c.res < 0 <;> simp [hneg]
  · simp only [Win32.AsyncFileReader.waitAndGetResult, h2]
    cases ok <;> simp

theorem wait_result_witness :
    Linux.AsyncFileReader.demo.waitAndGetResult
        (Linux.AsyncFileReader.demo.readAsync 0 Linux.Kernel.demo).2 =
        (if (4 : Int) < 0 then
            Outcome.threw
              (Exception.runtime_error ("Async read failed: " ++ Linux.strerror (-(4 : Int))))
          else Outcome.returned ⟨Linux.AsyncFileReader.demo.buffer_, (4 : Int).toNat⟩,
          Linux.io_uring_cqe_seen
            ((Linux.AsyncFileReader.demo.readAsync 0 Linux.Kernel.demo).2.complete 4)
            Linux.AsyncFileReader.demo.ring_) ∧
      ((Win32.AsyncFileReader.demo.readAsync 0 Win32.Kernel.demo).2.1.waitAndGetResult
          (Win32.AsyncFileReader.demo.readAsync 0 Win32.Kernel.demo).2.2).1 =
        (if true then
            Outcome.returned ⟨(Win32.AsyncFileReader.demo.readAsync 0 Win32.Kernel.demo).2.1.buffer_, 4⟩
          else Outcome.threw (Exception.runtime_error "GetOverlappedResult failed.")) :=
  wait_result Linux.AsyncFileReader.demo
    (Linux.AsyncFileReader.demo.readAsync 0 Linux.Kernel.demo).2
    ((Linux.AsyncFileReader.demo.readAsync 0 Linux.Kernel.demo).2.complete 4)
    ⟨4, by norm_num, by norm_num⟩
    (Win32.AsyncFileReader.demo.readAsync 0 Win32.Kernel.demo).2.1
    (Win32.AsyncFileReader.demo.readAsync 0 Win32.Kernel.demo).2.2
    ((Win32.AsyncFileReader.demo.readAsync 0 Win32.Kernel.demo).2.2.perform 4
      (Win32.Request.read 5 4 0)).2.2
    true 4 ⟨0, 4, 0, 0, 6⟩ rfl rfl

/-- C2, evaluated where it fails.  Handle-and-event backend, a reader with a
four-byte buffer on a five-byte file: a read at the end of the file (the OS
reports `ERROR_HANDLE_EOF`) and a read the device fails (the OS reports
`ERROR_IO_DEVICE`) make `waitAndGetResult` throw the same fixed message
`"GetOverlappedResult failed."`, so the exception does not carry the OS error.
The ring backend does carry it: there a read the device fails throws
`"Async read failed: " ++ strerror(EIO)` and a read the kernel rejects throws
`"Async read failed: " ++ strerror(EINVAL)`. -/
theorem wait_failure_drops_error :
    ((Win32.readBack "a.bin" 4 5 (Win32.Kernel.withFile "a.bin" [10, 20, 30, 40, 50])).map
        (fun x => (x.1, Win32.GetLastError x.2.2)) =
      some (Outcome.threw (Exception.runtime_error "GetOverlappedResult failed."),
        Win32.ERROR_HANDLE_EOF) ∧
    (Win32.readBack "a.bin" 4 0
          (Win32.Kernel.withFile "a.bin" [10, 20, 30, 40, 50]).brokenDevice).map
        (fun x => (x.1, Win32.GetLastError x.2.2)) =
      some (Outcome.threw (Exception.runtime_error "GetOverlappedResult failed."),
        Win32.ERROR_IO_DEVICE) ∧
    Win32.ERROR_HANDLE_EOF ≠ Win32.ERROR_IO_DEVICE) ∧
    ((Linux.AsyncFileReader.demo.waitAndGetResult
        (Linux.AsyncFileReader.demo.readAsync 0 Linux.Kernel.demo.brokenDevice).2).1 =
      Outcome.threw (Exception.runtime_error
        ("Async read failed: " ++ Linux.strerror Linux.EIO_errno)) ∧
    (Linux.AsyncFileReader.demo.waitAndGetResult
        (Linux.AsyncFileReader.demo.readAsync 9223372036854775807 Linux.Kernel.demo).2).1 =
      Outcome.threw (Exception.runtime_error
        ("Async read failed: " ++ Linux.strerror Linux.EINVAL)) ∧
    Linux.strerror Linux.EIO_errno ≠ Linux.strerror Linux.EINVAL) := by
  refine ⟨⟨by decide, by decide, by decide⟩, by decide, by decide, by decide⟩

/-- C3 (amended).  What `wait` makes of a write completion.  Ring backend: when
`io_uring_wait_cqe` hands over a completion with result `res`, `wait` throws
`"Async write failed: " ++ strerror(-res)` exactly when `res < 0` and returns
normally for every `res ≥ 0`, whatever the length that was requested.
Handle-and-event backend: `wait` returns normally when `GetOverlappedResult`
reports success, whatever the byte count, and throws when it reports failure. -/
theorem write_wait_result (w : Linux.AsyncFileWriter) (k k1 : Linux.Kernel) (c : Linux.Cqe)
    (w2 : Win32.AsyncFileWriter) (q q1 : Win32.Kernel) (ok : Bool) (n : Nat)
    (ov : Win32.OVERLAPPED)
    (h1 : Linux.io_uring_wait_cqe k w.ring_ = some (0, c, k1))
    (h2 : Win32.GetOverlappedResult q w2.hFile_ w2.overlapped_ = some (ok, n, ov, q1)) :
    w.wait k =
        (if c.res < 0 then
            Outcome.threw
              (Exception.runtime_error ("Async write failed: " ++ Linux.strerror (-c.res)))
          else Outcome.returned (),
          Linux.io_uring_cqe_seen k1 w.ring_) ∧
      (w2.wait q).1 =
        (if ok then Outcome.returned ()
          else Outcome.threw (Exception.runtime_error "GetOverlappedResult failed.")) := by
  refine ⟨?_, ?_⟩
  · simp only [Linux.AsyncFileWriter.wait, h1]
    by_cases hneg : c.res < 0 <;> simp [hneg]
  · simp only [Win32.AsyncFileWriter.wait, h2]
    cases ok <;> simp

theorem write_wait_result_witness :
    Linux.AsyncFileWriter.demo.wait
        (Linux.AsyncFileWriter.demo.writeAsync [1, 2, 3] 3 0 Linux.Kernel.demo).2.2 =
        (if (3 : Int) < 0 then
            Outcome.threw
              (Exception.runtime_error ("Async write failed: " ++ Linux.strerror (-(3 : Int))))
          else Outcome.returned (),
          Linux.io_uring_cqe_seen
            ((Linux.AsyncFileWriter.demo.writeAsync [1, 2, 3] 3 0 Linux.Kernel.demo).2.2.complete 7)
            Linux.AsyncFileWriter.demo.ring_) ∧
      ((Win32.AsyncFileWriter.demo.writeAsync [1, 2, 3] 3 0 Win32.Kernel.demo).2.1.wait
          (Win32.AsyncFileWriter.demo.writeAsync [1, 2, 3] 3 0 Win32.Kernel.demo).2.2).1 =
        (if true then Outcome.returned ()
          else Outcome.threw (Exception.runtime_error "GetOverlappedResult failed.")) :=
  write_wait_result Linux.AsyncFileWriter.demo
    (Linux.AsyncFileWriter.demo.writeAsync [1, 2, 3] 3 0 Linux.Kernel.demo).2.2
    ((Linux.AsyncFileWriter.demo.writeAsync [1, 2, 3] 3 0 Linux.Kernel.demo).2.2.complete 7)
    ⟨3, by norm_num, by norm_num⟩
    (Win32.AsyncFileWriter.demo.writeAsync [1, 2, 3] 3 0 Win32.Kernel.demo).2.1
    (Win32.AsyncFileWriter.demo.writeAsync [1, 2, 3] 3 0 Win32.Kernel.demo).2.2
    ((Win32.AsyncFileWriter.demo.writeAsync [1, 2, 3] 3 0 Win32.Kernel.demo).2.2.perform 7
      (Win32.Request.write [1, 2, 3] 3 0)).2.2
    true 3 ⟨0, 3, 0, 0, 8⟩ rfl rfl

/-- C3 as stated fails: on a kernel that transfers at most four bytes per
request, a write of ten bytes completes with result `4`, fewer than the length,
yet `wait` returns normally, and the file holds four bytes. -/
theorem write_wait_result_counterexample :
    ((Linux.io_uring_wait_cqe
          (Linux.AsyncFileWriter.demo.writeAsync [1, 2, 3, 4, 5, 6, 7, 8, 9, 10] 10 0
            (Linux.Kernel.demo.shortTransfers 4)).2.2
          Linux.AsyncFileWriter.demo.ring_).map (fun x => x.2.1.res) = some 4) ∧
      ((Linux.AsyncFileWriter.demo.writeAsync [1, 2, 3, 4, 5, 6, 7, 8, 9, 10] 10 0
            (Linux.Kernel.demo.shortTransfers 4)).2.1.wait
          (Linux.AsyncFileWriter.demo.writeAsync [1, 2, 3, 4, 5, 6, 7, 8, 9, 10] 10 0
            (Linux.Kernel.demo.shortTransfers 4)).2.2).1
        = Outcome.returned () ∧
      ((Linux.AsyncFileWriter.demo.writeAsync [1, 2, 3, 4, 5, 6, 7, 8, 9, 10] 10 0
            (Linux.Kernel.demo.shortTransfers 4)).2.1.wait
          (Linux.AsyncFileWriter.demo.writeAsync [1, 2, 3, 4, 5, 6, 7, 8, 9, 10] 10 0
            (Linux.Kernel.demo.shortTransfers 4)).2.2).2.files "b.bin"
        = some [1, 2, 3, 4] := by
  refine ⟨by decide, by decide, by decide⟩

/-! ## Submission -/

/-- C4, evaluated where it fails.  On a kernel whose `io_uring_submit` fails,
with a vacant submission entry on the ring: `io_uring_submit` returns `-EAGAIN`,
and `readAsync` and `writeAsync` nevertheless return normally; the prepared
request stays in the submission queue and nothing is handed to the kernel. -/
theorem submit_failure_ignored (r : Linux.AsyncFileReader) (w : Linux.AsyncFileWriter)
    (kr kw : Linux.Kernel) (ringR ringW : Linux.Ring) (offset woffset : Int)
    (data : List Byte) (n : Nat)
    (hr : kr.rings r.ring_ = some ringR) (hvr : ringR.sq.length < ringR.entries)
    (hsr : kr.faults.submit = true)
    (hw : kw.rings w.ring_ = some ringW) (hvw : ringW.sq.length < ringW.entries)
    (hsw : kw.faults.submit = true) :
    ((Linux.io_uring_submit kr r.ring_).1 = -Linux.EAGAIN ∧
      (r.readAsync offset kr).1 = Outcome.returned () ∧
      (r.readAsync offset kr).2.rings r.ring_ =
        some { ringR with sq := ringR.sq ++ [r.request offset] }) ∧
    ((Linux.io_uring_submit kw w.ring_).1 = -Linux.EAGAIN ∧
      (w.writeAsync data n woffset kw).1 = Outcome.returned () ∧
      (w.writeAsync data n woffset kw).2.2.rings w.ring_ =
        some { ringW with sq := ringW.sq ++ [w.request data n woffset] }) := by
  refine ⟨⟨?_, ?_, ?_⟩, ⟨?_, ?_, ?_⟩⟩
  · simp [Linux.io_uring_submit, hr, hsr]
  · simp [Linux.AsyncFileReader.readAsync, Linux.io_uring_get_sqe, hr, hvr]
  · simp [Linux.AsyncFileReader.readAsync, Linux.io_uring_get_sqe, hr, hvr,
      Linux.io_uring_prep_read, Linux.Kernel.setSqe, Linux.io_uring_submit, hsr,
      Linux.AsyncFileReader.request]
  · simp [Linux.io_uring_submit, hw, hsw]
  · simp [Linux.AsyncFileWriter.writeAsync, Linux.io_uring_get_sqe, hw, hvw]
  · simp [Linux.AsyncFileWriter.writeAsync, Linux.io_uring_get_sqe, hw, hvw,
      Linux.io_uring_prep_write, Linux.Kernel.setSqe, Linux.io_uring_submit, hsw,
      Linux.AsyncFileWriter.request]

theorem submit_failure_ignored_witness :
    ((Linux.io_uring_submit Linux.Kernel.demo.rejecting Linux.AsyncFileReader.demo.ring_).1
        = -Linux.EAGAIN ∧
      (Linux.AsyncFileReader.demo.readAsync 0 Linux.Kernel.demo.rejecting).1
        = Outcome.returned () ∧
      (Linux.AsyncFileReader.demo.readAsync 0 Linux.Kernel.demo.rejecting).2.rings
          Linux.AsyncFileReader.demo.ring_ =
        some { (⟨8, [], [], []⟩ : Linux.Ring) with
          sq := ([] : List Linux.Sqe) ++ [Linux.AsyncFileReader.demo.request 0] }) ∧
    ((Linux.io_uring_submit Linux.Kernel.demo.rejecting Linux.AsyncFileWriter.demo.ring_).1
        = -Linux.EAGAIN ∧
      (Linux.AsyncFileWriter.demo.writeAsync [1, 2] 2 0 Linux.Kernel.demo.rejecting).1
        = Outcome.returned () ∧
      (Linux.AsyncFileWriter.demo.writeAsync [1, 2] 2 0 Linux.Kernel.demo.rejecting).2.2.rings
          Linux.AsyncFileWriter.demo.ring_ =
        some { (⟨8, [], [], []⟩ : Linux.Ring) with
          sq := ([] : List Linux.Sqe) ++ [Linux.AsyncFileWriter.demo.request [1, 2] 2 0] }) :=
  submit_failure_ignored Linux.AsyncFileReader.demo Linux.AsyncFileWriter.demo
    Linux.Kernel.demo.rejecting Linux.Kernel.demo.rejecting ⟨8, [], [], []⟩ ⟨8, [], [], []⟩ 0 0
    [1, 2] 2 (by decide) (by decide) (by decide) (by decide) (by decide) (by decide)

/-! ## Construction -/

theorem ctor_missing_file (P : String) (n : Nat) (k : Linux.Kernel) (q : Win32.Kernel)
    (hk : k.files P = Option.none) (hq : q.files P = Option.none) :
    Linux.AsyncFileReader.ctor P n k =
        (Outcome.threw (Exception.runtime_error ("Failed to open file: " ++ P)), k) ∧
      Win32.AsyncFileReader.ctor P n q =
        (Outcome.threw (Exception.runtime_error "Failed to open file for reading."), q) := by
  constructor
  · by_cases ho : k.faults.open_ = true <;>
      simp [Linux.AsyncFileReader.ctor, Linux.posix_open, hk, ho, Linux.O_RDONLY, Linux.O_CREAT]
  · by_cases ho : q.faults.createFile = true <;>
      simp [Win32.AsyncFileReader.ctor, Win32.CreateFile, hq, ho, Win32.OPEN_EXISTING,
        Win32.INVALID_HANDLE_VALUE]

/-- C5, evaluated where it fails.  Ring backend: when the file opens and
`io_uring_queue_init` fails, the reader constructor throws `"io_uring init
failed"` and the descriptor it opened is still open: nothing was released.
Handle-and-event backend: when the file opens, the buffer is allocated and
`CreateEvent` fails, the constructor closes the file handle and throws, and the
buffer it allocated is still allocated. -/
theorem ctor_failure_leaks (P : String) (n : Nat) (c : List Byte) (k : Linux.Kernel)
    (q : Win32.Kernel)
    (hk : k.files P = some c) (ho : k.faults.open_ = false) (hi : k.faults.queue_init = true)
    (hq : q.files P = some c) (hc : q.faults.createFile = false) (ha : q.faults.alloc = false)
    (he : q.faults.createEvent = true) :
    ((Linux.AsyncFileReader.ctor P n k).1 =
        Outcome.threw (Exception.runtime_error "io_uring init failed") ∧
      (Linux.AsyncFileReader.ctor P n k).2.fds k.next = some ⟨P, true, false, false⟩ ∧
      (Linux.AsyncFileReader.ctor P n k).2.released = k.released) ∧
    ((Win32.AsyncFileReader.ctor P n q).1 =
        Outcome.threw (Exception.runtime_error "Failed to create event for async read.") ∧
      (Win32.AsyncFileReader.ctor P n q).2.heap (q.next + 1 + 1) = some (List.replicate n 0xAA) ∧
      (Win32.AsyncFileReader.ctor P n q).2.released
        = q.released ++ [Win32.Resource.handle (q.next + 1)]) := by
  have hnn : ¬ ((k.next : Int) < 0) := by omega
  have hne : ¬ ((q.next : Int) + 1 = -1) := by omega
  refine ⟨⟨?_, ?_, ?_⟩, ⟨?_, ?_, ?_⟩⟩
  · simp [Linux.AsyncFileReader.ctor, Linux.posix_open, hk, ho, hi, hnn,
      Linux.io_uring_queue_init, Linux.O_RDONLY, Linux.O_CREAT, Linux.ENOMEM]
  · simp [Linux.AsyncFileReader.ctor, Linux.posix_open, hk, ho, hi, hnn,
      Linux.io_uring_queue_init, Linux.O_RDONLY, Linux.O_CREAT, Linux.ENOMEM, Linux.O_TRUNC,
      Linux.O_APPEND, Linux.O_WRONLY]
  · simp [Linux.AsyncFileReader.ctor, Linux.posix_open, hk, ho, hi, hnn,
      Linux.io_uring_queue_init, Linux.O_RDONLY, Linux.O_CREAT, Linux.ENOMEM]
  · simp [Win32.AsyncFileReader.ctor, Win32.CreateFile, hq, hc, ha, he, hne,
      Win32.operator_new, Win32.CreateEvent, Win32.OPEN_EXISTING, Win32.INVALID_HANDLE_VALUE]
  · simp [Win32.AsyncFileReader.ctor, Win32.CreateFile, hq, hc, ha, he, hne,
      Win32.operator_new, Win32.CreateEvent, Win32.OPEN_EXISTING, Win32.INVALID_HANDLE_VALUE,
      Win32.CloseHandle]
  · simp [Win32.AsyncFileReader.ctor, Win32.CreateFile, hq, hc, ha, he, hne,
      Win32.operator_new, Win32.CreateEvent, Win32.OPEN_EXISTING, Win32.INVALID_HANDLE_VALUE,
      Win32.CloseHandle]

theorem ctor_failure_leaks_witness :
    ((Linux.AsyncFileReader.ctor "a.bin" 4 (Linux.Kernel.withFile "a.bin" [1, 2, 3]).withoutRings).1
        = Outcome.threw (Exception.runtime_error "io_uring init failed") ∧
      (Linux.AsyncFileReader.ctor "a.bin" 4
          (Linux.Kernel.withFile "a.bin" [1, 2, 3]).withoutRings).2.fds
          (Linux.Kernel.withFile "a.bin" [1, 2, 3]).withoutRings.next
        = some ⟨"a.bin", true, false, false⟩ ∧
      (Linux.AsyncFileReader.ctor "a.bin" 4
          (Linux.Kernel.withFile "a.bin" [1, 2, 3]).withoutRings).2.released
        = (Linux.Kernel.withFile "a.bin" [1, 2, 3]).withoutRings.released) ∧
    ((Win32.AsyncFileReader.ctor "a.bin" 4
          (Win32.Kernel.withFile "a.bin" [1, 2, 3]).withoutEvents).1
        = Outcome.threw (Exception.runtime_error "Failed to create event for async read.") ∧
      (Win32.AsyncFileReader.ctor "a.bin" 4
          (Win32.Kernel.withFile "a.bin" [1, 2, 3]).withoutEvents).2.heap
          ((Win32.Kernel.withFile "a.bin" [1, 2, 3]).withoutEvents.next + 1 + 1)
        = some (List.replicate 4 0xAA) ∧
      (Win32.AsyncFileReader.ctor "a.bin" 4
          (Win32.Kernel.withFile "a.bin" [1, 2, 3]).withoutEvents).2.released
        = (Win32.Kernel.withFile "a.bin" [1, 2, 3]).withoutEvents.released
            ++ [Win32.Resource.handle
              ((Win32.Kernel.withFile "a.bin" [1, 2, 3]).withoutEvents.next + 1)]) :=
  ctor_failure_leaks "a.bin" 4 [1, 2, 3] (Linux.Kernel.withFile "a.bin" [1, 2, 3]).withoutRings
    (Win32.Kernel.withFile "a.bin" [1, 2, 3]).withoutEvents (by decide) (by decide) (by decide)
    (by decide) (by decide) (by decide) (by decide)

/-! ## Moves -/

/-- C6, evaluated where it fails.  Ring backend: after a move construction the
source holds no descriptor and no buffer but still names the ring of the
destination; destroying the source tears that ring down, so the destination is
left without a completion context and its next submission reads queue memory
that is no longer mapped, which ends the process; destroying the destination
afterwards releases the same ring a second time.  The same holds after a move
assignment and for the writer. -/
theorem move_then_destroy_source (r d : Linux.AsyncFileReader) (w : Linux.AsyncFileWriter)
    (k : Linux.Kernel) :
    ((Linux.AsyncFileReader.moveCtor r).2.fd_ = -1 ∧
      (Linux.AsyncFileReader.moveCtor r).2.buffer_ = 0 ∧
      (Linux.AsyncFileReader.moveCtor r).2.ring_ = (Linux.AsyncFileReader.moveCtor r).1.ring_ ∧
      ((Linux.AsyncFileReader.moveCtor r).2.dtor k).released
        = k.released ++ [Linux.Resource.ring r.ring_] ∧
      ((Linux.AsyncFileReader.moveCtor r).2.dtor k).rings
          (Linux.AsyncFileReader.moveCtor r).1.ring_ = Option.none ∧
      ((Linux.AsyncFileReader.moveCtor r).1.readAsync 0
          ((Linux.AsyncFileReader.moveCtor r).2.dtor k)).1
        = Outcome.died ∧
      2 ≤ (((Linux.AsyncFileReader.moveCtor r).1.dtor
              ((Linux.AsyncFileReader.moveCtor r).2.dtor k)).released.count
            (Linux.Resource.ring r.ring_))) ∧
    ((Linux.AsyncFileReader.moveAssign d r k).2.1.ring_
        = (Linux.AsyncFileReader.moveAssign d r k).1.ring_ ∧
      ((Linux.AsyncFileReader.moveAssign d r k).2.1.dtor
          (Linux.AsyncFileReader.moveAssign d r k).2.2).rings
          (Linux.AsyncFileReader.moveAssign d r k).1.ring_ = Option.none) ∧
    ((Linux.AsyncFileWriter.moveCtor w).2.fd_ = -1 ∧
      ((Linux.AsyncFileWriter.moveCtor w).2.dtor k).released
        = k.released ++ [Linux.Resource.ring w.ring_] ∧
      ((Linux.AsyncFileWriter.moveCtor w).2.dtor k).rings
          (Linux.AsyncFileWriter.moveCtor w).1.ring_ = Option.none ∧
      2 ≤ (((Linux.AsyncFileWriter.moveCtor w).1.dtor
              ((Linux.AsyncFileWriter.moveCtor w).2.dtor k)).released.count
            (Linux.Resource.ring w.ring_))) := by
  refine ⟨⟨rfl, rfl, rfl, ?_, ?_, ?_, ?_⟩, ⟨rfl, ?_⟩, ⟨rfl, ?_, ?_, ?_⟩⟩
  · simp [Linux.AsyncFileReader.moveCtor, Linux.AsyncFileReader.dtor,
      Linux.AsyncFileReader.cleanup, Linux.io_uring_queue_exit]
  · simp [Linux.AsyncFileReader.moveCtor, Linux.AsyncFileReader.dtor,
      Linux.AsyncFileReader.cleanup, Linux.io_uring_queue_exit]
  · simp [Linux.AsyncFileReader.moveCtor, Linux.AsyncFileReader.dtor,
      Linux.AsyncFileReader.cleanup, Linux.io_uring_queue_exit, Linux.AsyncFileReader.readAsync,
      Linux.io_uring_get_sqe]
  · simp only [Linux.AsyncFileReader.moveCtor, Linux.AsyncFileReader.dtor,
      Linux.AsyncFileReader.cleanup, Linux.io_uring_queue_exit, Linux.posix_close,
      Linux.posix_free]
    split <;> split <;> simp [List.count_append]
  · simp [Linux.AsyncFileReader.moveAssign, Linux.AsyncFileReader.dtor,
      Linux.AsyncFileReader.cleanup, Linux.io_uring_queue_exit]
  · simp [Linux.AsyncFileWriter.moveCtor, Linux.AsyncFileWriter.dtor,
      Linux.AsyncFileWriter.cleanup, Linux.io_uring_queue_exit]
  · simp [Linux.AsyncFileWriter.moveCtor, Linux.AsyncFileWriter.dtor,
      Linux.AsyncFileWriter.cleanup, Linux.io_uring_queue_exit]
  · simp only [Linux.AsyncFileWriter.moveCtor, Linux.AsyncFileWriter.dtor,
      Linux.AsyncFileWriter.cleanup, Linux.io_uring_queue_exit, Linux.posix_close]
    split <;> simp [List.count_append]

/-- On the handle-and-event backend a moved-from reader holds nothing and its
destructor releases nothing. -/
theorem moved_from_reader_inert (r : Win32.AsyncFileReader) (k : Win32.Kernel) :
    (Win32.AsyncFileReader.moveCtor r).2.dtor k = k := by
  simp [Win32.AsyncFileReader.moveCtor, Win32.AsyncFileReader.dtor,
    Win32.AsyncFileReader.cleanup, Win32.operator_delete, Win32.INVALID_HANDLE_VALUE]

/-! ## Append -/

theorem writer_dtor_files (w : Linux.AsyncFileWriter) (k : Linux.Kernel) :
    (w.dtor k).files = k.files ∧ (w.dtor k).faults = k.faults := by
  simp only [Linux.AsyncFileWriter.dtor, Linux.AsyncFileWriter.cleanup,
    Linux.io_uring_queue_exit, Linux.posix_close]
  split <;> exact ⟨rfl, rfl⟩

/-- Append semantics on the ring backend, in an environment without failures:
two successive writers on a fresh path, writing `A` then `B` (each of at most
`0x7ffff000` bytes, the most one request transfers), leave `A ++ B` with
`append = true` and `B` with `append = false`. -/
theorem append_semantics_ring (P : String) (append : Bool) (A B : List Byte) (k : Linux.Kernel)
    (hfresh : k.files P = Option.none) (hf : k.faults = Linux.Faults.none)
    (hA : A.length ≤ Linux.MAX_RW_COUNT) (hB : B.length ≤ Linux.MAX_RW_COUNT) :
    ∃ k1, Linux.writeTwice P append A B k = some k1 ∧
      k1.files P = some (if append then A ++ B else B) := by
  have h1 := Linux.writeOut_eval P append A k hf hA
  simp only [Linux.writeTwice, h1]
  generalize hw1 : (⟨k.next, A, A.length, k.next + 1⟩ : Linux.AsyncFileWriter) = w1
  generalize hk1 : ({ k with
          files := Function.update k.files P
            (some (if append then (k.files P).getD [] ++ A else A))
          fds := Function.update k.fds k.next (some ⟨P, false, true, append⟩)
          fpos := Function.update k.fpos k.next 0
          rings := Function.update k.rings (k.next + 1) (some ⟨8, [], [], []⟩)
          next := k.next + 1 + 1 } : Linux.Kernel) = k1
  have hk1files : k1.files P = some (if append then A else A) := by
    rw [← hk1]; simp [hfresh]
  have hk1f : k1.faults = Linux.Faults.none := by rw [← hk1]; exact hf
  obtain ⟨hdf, hdfa⟩ := writer_dtor_files w1 k1
  have h2 := Linux.writeOut_eval P append B (w1.dtor k1) (by rw [hdfa]; exact hk1f) hB
  simp only [h2]
  refine ⟨_, rfl, ?_⟩
  rw [(writer_dtor_files _ _).1]
  simp only [Function.update_same, hdf, hk1files]
  cases append <;> simp

theorem append_semantics_ring_witness :
    ∃ k1, Linux.writeTwice "log.bin" true [1, 2] [3] Linux.Kernel.boot = some k1 ∧
      k1.files "log.bin" = some (if true then [1, 2] ++ [3] else [3]) :=
  append_semantics_ring "log.bin" true [1, 2] [3] Linux.Kernel.boot rfl rfl (by decide)
    (by decide)

/-! ## Reading back on the handle-and-event backend -/

end AsyncFile

namespace AsyncFile

/-! ## Append on the handle-and-event backend -/

theorem win32_writer_dtor_files (w : Win32.AsyncFileWriter) (q : Win32.Kernel) :
    (w.dtor q).files = q.files ∧ (w.dtor q).faults = q.faults := by
  simp only [Win32.AsyncFileWriter.dtor, Win32.AsyncFileWriter.cleanup, Win32.CloseHandle]
  split <;> split <;> exact ⟨rfl, rfl⟩

theorem win32_writeOut_eval (P : String) (append : Bool) (S : List Byte) (q : Win32.Kernel)
    (hf : q.faults = Win32.Faults.none) (hS : S.length < 2 ^ 32) :
    ∃ w q1, Win32.writeOut P append S q = some (w, q1) ∧ q1.faults = Win32.Faults.none ∧
      q1.files P = some (pwrite (if append then (q.files P).getD [] else []) 0 S) := by
  have hne : ¬ ((q.next : Int) + 1 = -1) := by omega
  have hne0 : ¬ ((q.next : Int) + 1 + 1 = 0) := by omega
  have hne3 : ((q.next : Int) + 1) ≠ (q.next : Int) + 1 + 1 := by omega
  have hland : Int.land 0 4294967295 = 0 := by decide
  have hshift : (0 : Int) >>> 32 = 0 := by decide
  have hgw : (1073741824 &&& 1073741824 : Nat) = 1073741824 := by decide
  have hmod : S.length % 4294967296 = S.length := Nat.mod_eq_of_lt hS
  cases append <;>
  · simp [Win32.writeOut, Win32.AsyncFileWriter.ctor, Win32.CreateFile, hf, Win32.Faults.none,
      Win32.OPEN_EXISTING, Win32.INVALID_HANDLE_VALUE, hne,
      Win32.CreateEvent, hne0, Win32.AsyncFileWriter.writeAsync, Win32.ResetEvent,
      Win32.WriteFile, Win32.GetLastError, Win32.ERROR_IO_PENDING,
      Win32.AsyncFileWriter.wait, Win32.GetOverlappedResult, Win32.STATUS_PENDING,
      Win32.OVERLAPPED.zero, Win32.Kernel.perform, Win32.OVERLAPPED.position,
      Win32.STATUS_SUCCESS, Win32.Kernel.clip, hne3, hland, hshift,
      hgw, Win32.CREATE_ALWAYS, Win32.OPEN_ALWAYS, Win32.GENERIC_WRITE,
      Win32.ERROR_INVALID_HANDLE, Function.update_noteq hne3, hmod]
    exact ⟨_, _, ⟨rfl, rfl⟩, rfl, by simp⟩

theorem pwrite_start (a b : List Byte) : pwrite a 0 b = b ++ a.drop b.length := by
  simp [pwrite]

/-- C7, evaluated where it fails.  On the handle-and-event backend, in an
environment without failures, two successive writers on a fresh path writing
`A` then `B` at the default offset leave, with `append = true`, the bytes of
`B` followed by what remains of `A` past `len(B)`: the second write
lands at offset `0` and overwrites the start of the first instead of following
it.  With `append = false` the file holds `B`. -/
theorem append_overwrites_on_win32 (P : String) (append : Bool) (A B : List Byte)
    (q : Win32.Kernel)
    (hfresh : q.files P = Option.none) (hf : q.faults = Win32.Faults.none)
    (hA : A.length < 2 ^ 32) (hB : B.length < 2 ^ 32) :
    ∃ q1, Win32.writeTwice P append A B q = some q1 ∧
      q1.files P = some (if append then B ++ A.drop B.length else B) := by
  obtain ⟨w1, k1, h1, hk1f, hk1files⟩ := win32_writeOut_eval P append A q hf hA
  obtain ⟨hd1, hd1f⟩ := win32_writer_dtor_files w1 k1
  obtain ⟨w2, k2, h2, _, hk2files⟩ :=
    win32_writeOut_eval P append B (w1.dtor k1) (by rw [hd1f]; exact hk1f) hB
  obtain ⟨hd2, _⟩ := win32_writer_dtor_files w2 k2
  refine ⟨w2.dtor k2, ?_, ?_⟩
  · simp only [Win32.writeTwice, h1, h2]
  · rw [hd2, hk2files, hd1, hk1files]
    cases append <;> simp [pwrite_start, hfresh]

theorem append_overwrites_on_win32_witness :
    ∃ q1, Win32.writeTwice "log.bin" true [1, 2] [3] Win32.Kernel.boot = some q1 ∧
      q1.files "log.bin" = some (if true then [3] ++ [1, 2].drop [3].length else [3]) :=
  append_overwrites_on_win32 "log.bin" true [1, 2] [3] Win32.Kernel.boot rfl rfl (by decide)
    (by decide)

/-- The failing input of C7 evaluated on both backends: `[3, 2]` on the
handle-and-event backend, `[1, 2, 3]` on the ring backend. -/
theorem append_backends_differ :
    (Win32.writeTwice "log.bin" true [1, 2] [3] Win32.Kernel.boot).map
        (fun k => k.files "log.bin") = some (some [3, 2]) ∧
      (Linux.writeTwice "log.bin" true [1, 2] [3] Linux.Kernel.boot).map
        (fun k => k.files "log.bin") = some (some [1, 2, 3]) := by
  refine ⟨by decide, by decide⟩

end AsyncFile

namespace AsyncFile

/-! ## Offset encoding on the handle-and-event backend -/

theorem offset_low_half (n : Nat) :
    (Int.land (n : Int) 0xFFFFFFFF).toNat % 2 ^ 32 = n % 2 ^ 32 := by
  have h1 : Int.land (n : Int) 0xFFFFFFFF = ((n &&& 4294967295 : Nat) : Int) := rfl
  have e1 : n &&& 4294967295 = n % 2 ^ 32 := Nat.and_pow_two_sub_one_eq_mod n 32
  rw [h1, Int.toNat_ofNat, e1, Nat.mod_mod]

theorem offset_high_half (n : Nat) (hn : n < 2 ^ 63) :
    (Int.land ((n : Int) >>> 32) 0xFFFFFFFF).toNat % 2 ^ 32 = n / 2 ^ 32 := by
  have h2 : ((n : Int) >>> 32) = ((n >>> 32 : Nat) : Int) := rfl
  have h3 : Int.land ((n >>> 32 : Nat) : Int) 0xFFFFFFFF
      = (((n >>> 32) &&& 4294967295 : Nat) : Int) := rfl
  have e2 : (n >>> 32) &&& 4294967295 = (n >>> 32) % 2 ^ 32 :=
    Nat.and_pow_two_sub_one_eq_mod _ 32
  have e3 : n >>> 32 = n / 2 ^ 32 := Nat.shiftRight_eq_div_pow n 32
  rw [h2, h3, Int.toNat_ofNat, e2, Nat.mod_mod, e3]
  apply Nat.mod_eq_of_lt
  omega

theorem win32_ReadFile_offsets (k : Win32.Kernel) (h : Int) (buf n : Nat)
    (ov : Win32.OVERLAPPED) :
    (Win32.ReadFile k h buf n ov).2.1.Offset = ov.Offset ∧
      (Win32.ReadFile k h buf n ov).2.1.OffsetHigh = ov.OffsetHigh := by
  unfold Win32.ReadFile
  split
  · split <;> exact ⟨rfl, rfl⟩
  · exact ⟨rfl, rfl⟩

theorem win32_WriteFile_offsets (k : Win32.Kernel) (h : Int) (buf : List Byte) (n : Nat)
    (ov : Win32.OVERLAPPED) :
    (Win32.WriteFile k h buf n ov).2.1.Offset = ov.Offset ∧
      (Win32.WriteFile k h buf n ov).2.1.OffsetHigh = ov.OffsetHigh := by
  unfold Win32.WriteFile
  split
  · split <;> exact ⟨rfl, rfl⟩
  · exact ⟨rfl, rfl⟩

theorem win32_readAsync_offsets (r : Win32.AsyncFileReader) (offset : Int) (k : Win32.Kernel) :
    (r.readAsync offset k).2.1.overlapped_.Offset
        = (Int.land offset 0xFFFFFFFF).toNat % 2 ^ 32 ∧
      (r.readAsync offset k).2.1.overlapped_.OffsetHigh
        = (Int.land (offset >>> 32) 0xFFFFFFFF).toNat % 2 ^ 32 := by
  have h := win32_ReadFile_offsets
    (Win32.ResetEvent k r.overlapped_.hEvent) r.hFile_ r.buffer_ (r.buffer_size_ % 2 ^ 32)
    { r.overlapped_ with
      Offset := (Int.land offset 0xFFFFFFFF).toNat % 2 ^ 32
      OffsetHigh := (Int.land (offset >>> 32) 0xFFFFFFFF).toNat % 2 ^ 32 }
  simp only [Win32.AsyncFileReader.readAsync]
  split
  · split <;> exact h
  · exact h

theorem win32_writeAsync_offsets (w : Win32.AsyncFileWriter) (data : List Byte) (n : Nat)
    (offset : Int) (k : Win32.Kernel) :
    (w.writeAsync data n offset k).2.1.overlapped_.Offset
        = (Int.land offset 0xFFFFFFFF).toNat % 2 ^ 32 ∧
      (w.writeAsync data n offset k).2.1.overlapped_.OffsetHigh
        = (Int.land (offset >>> 32) 0xFFFFFFFF).toNat % 2 ^ 32 := by
  have h := win32_WriteFile_offsets
    (Win32.ResetEvent k w.overlapped_.hEvent) w.hFile_ data n
    { w.overlapped_ with
      Offset := (Int.land offset 0xFFFFFFFF).toNat % 2 ^ 32
      OffsetHigh := (Int.land (offset >>> 32) 0xFFFFFFFF).toNat % 2 ^ 32 }
  simp only [Win32.AsyncFileWriter.writeAsync]
  split
  · split <;> exact h
  · exact h

theorem win32_ResetEvent_file (k : Win32.Kernel) (e h : Int) (P : String) (a b : Bool)
    (hh : k.handles h = some (Win32.Object.file P a b)) :
    (Win32.ResetEvent k e).handles h = some (Win32.Object.file P a b) ∧
      (Win32.ResetEvent k e).faults = k.faults ∧ (Win32.ResetEvent k e).pending = k.pending := by
  unfold Win32.ResetEvent
  split
  · rename_i s he
    refine ⟨?_, rfl, rfl⟩
    have hne : h ≠ e := by
      intro heq
      rw [heq, he] at hh
      cases hh
    simp [Function.update_noteq hne, hh]
  · exact ⟨hh, rfl, rfl⟩

theorem win32_readAsync_request (r : Win32.AsyncFileReader) (m : Nat) (k : Win32.Kernel)
    (P : String) (a : Bool) (hm : m < 2 ^ 63)
    (hr : k.handles r.hFile_ = some (Win32.Object.file P true a))
    (ht : k.faults.transfer = false) :
    (r.readAsync (m : Int) k).1 = Outcome.returned () ∧
      (r.readAsync (m : Int) k).2.2.pending r.hFile_
        = some (Win32.Request.read r.buffer_ (r.buffer_size_ % 2 ^ 32) m) := by
  obtain ⟨hh, hf, _⟩ := win32_ResetEvent_file k r.overlapped_.hEvent r.hFile_ P true a hr
  have hpos : m / 2 ^ 32 * 2 ^ 32 + m % 2 ^ 32 = m := by omega
  simp only [Win32.AsyncFileReader.readAsync, Win32.ReadFile, hh, hf, ht,
    Win32.OVERLAPPED.position, offset_low_half, offset_high_half m hm, hpos, Nat.mod_mod,
    Win32.GetLastError, Win32.ERROR_IO_PENDING]
  simp

theorem win32_writeAsync_request (w : Win32.AsyncFileWriter) (data : List Byte) (n m : Nat)
    (k : Win32.Kernel) (P : String) (a : Bool) (hm : m < 2 ^ 63)
    (hw : k.handles w.hFile_ = some (Win32.Object.file P a true))
    (ht : k.faults.transfer = false) :
    (w.writeAsync data n (m : Int) k).1 = Outcome.returned () ∧
      (w.writeAsync data n (m : Int) k).2.2.pending w.hFile_
        = some (Win32.Request.write data (n % 2 ^ 32) m) := by
  obtain ⟨hh, hf, _⟩ := win32_ResetEvent_file k w.overlapped_.hEvent w.hFile_ P a true hw
  have hpos : m / 2 ^ 32 * 2 ^ 32 + m % 2 ^ 32 = m := by omega
  simp only [Win32.AsyncFileWriter.writeAsync, Win32.WriteFile, hh, hf, ht,
    Win32.OVERLAPPED.position, offset_low_half, offset_high_half m hm, hpos,
    Win32.GetLastError, Win32.ERROR_IO_PENDING]
  simp

/-- C11.  Offset encoding on the handle-and-event backend.  For every offset
with `0 ≤ offset < 2^63`, the fields `readAsync` leaves in the `OVERLAPPED` are
`Offset = offset & 0xFFFFFFFF` and `OffsetHigh = (offset >> 32) & 0xFFFFFFFF`;
each is below `2^32` and `OffsetHigh * 2^32 + Offset = offset`; `writeAsync`
computes the same pair; and when the file handle is open for the operation and
the kernel accepts the request, the request handed to the kernel acts at byte
position `offset` exactly. -/
theorem offset_encoding (r : Win32.AsyncFileReader) (w : Win32.AsyncFileWriter)
    (data : List Byte) (n : Nat) (kr kw : Win32.Kernel) (offset : Int)
    (h0 : 0 ≤ offset) (h63 : offset < 2 ^ 63) :
    (((r.readAsync offset kr).2.1.overlapped_.Offset : Int) = Int.land offset 0xFFFFFFFF ∧
      ((r.readAsync offset kr).2.1.overlapped_.OffsetHigh : Int)
        = Int.land (offset >>> 32) 0xFFFFFFFF) ∧
    ((r.readAsync offset kr).2.1.overlapped_.Offset < 2 ^ 32 ∧
      (r.readAsync offset kr).2.1.overlapped_.OffsetHigh < 2 ^ 32 ∧
      ((r.readAsync offset kr).2.1.overlapped_.OffsetHigh : Int) * 2 ^ 32
        + (r.readAsync offset kr).2.1.overlapped_.Offset = offset) ∧
    ((w.writeAsync data n offset kw).2.1.overlapped_.Offset
        = (r.readAsync offset kr).2.1.overlapped_.Offset ∧
      (w.writeAsync data n offset kw).2.1.overlapped_.OffsetHigh
        = (r.readAsync offset kr).2.1.overlapped_.OffsetHigh) ∧
    (∀ (P : String) (a : Bool), kr.handles r.hFile_ = some (Win32.Object.file P true a) →
      kr.faults.transfer = false →
      (r.readAsync offset kr).1 = Outcome.returned () ∧
        (r.readAsync offset kr).2.2.pending r.hFile_
          = some (Win32.Request.read r.buffer_ (r.buffer_size_ % 2 ^ 32) offset.toNat)) ∧
    (∀ (P : String) (a : Bool), kw.handles w.hFile_ = some (Win32.Object.file P a true) →
      kw.faults.transfer = false →
      (w.writeAsync data n offset kw).1 = Outcome.returned () ∧
        (w.writeAsync data n offset kw).2.2.pending w.hFile_
          = some (Win32.Request.write data (n % 2 ^ 32) offset.toNat)) := by
  obtain ⟨m, rfl⟩ := Int.eq_ofNat_of_zero_le h0
  have hm : m < 2 ^ 63 := by omega
  obtain ⟨hlo, hhi⟩ := win32_readAsync_offsets r (m : Int) kr
  obtain ⟨wlo, whi⟩ := win32_writeAsync_offsets w data n (m : Int) kw
  rw [offset_low_half] at hlo wlo
  rw [offset_high_half m hm] at hhi whi
  have h1 : Int.land (m : Int) 0xFFFFFFFF = ((m % 2 ^ 32 : Nat) : Int) := by
    have e : Int.land (m : Int) 0xFFFFFFFF = ((m &&& 4294967295 : Nat) : Int) := rfl
    rw [e, show m &&& 4294967295 = m % 2 ^ 32 from Nat.and_pow_two_sub_one_eq_mod m 32]
  have h2 : Int.land ((m : Int) >>> 32) 0xFFFFFFFF = ((m / 2 ^ 32 : Nat) : Int) := by
    have e : Int.land ((m : Int) >>> 32) 0xFFFFFFFF
        = (((m >>> 32) &&& 4294967295 : Nat) : Int) := rfl
    rw [e, show (m >>> 32) &&& 4294967295 = (m >>> 32) % 2 ^ 32 from
      Nat.and_pow_two_sub_one_eq_mod _ 32, Nat.shiftRight_eq_div_pow]
    congr 1
    apply Nat.mod_eq_of_lt
    omega
  refine ⟨⟨?_, ?_⟩, ⟨?_, ?_, ?_⟩, ⟨?_, ?_⟩, ?_, ?_⟩
  · rw [hlo, h1]
  · rw [hhi, h2]
  · rw [hlo]; omega
  · rw [hhi]; omega
  · rw [hlo, hhi]; omega
  · rw [wlo, hlo]
  · rw [whi, hhi]
  · intro P a hr ht
    simpa using win32_readAsync_request r m kr P a hm hr ht
  · intro P a hw ht
    simpa using win32_writeAsync_request w data n m kw P a hm hw ht

theorem offset_encoding_witness :
    ((0 : Int) ≤ 12884901893 ∧ (12884901893 : Int) < 2 ^ 63) ∧
    ((Win32.AsyncFileReader.demo.readAsync 12884901893 Win32.Kernel.demo).2.1.overlapped_.Offset
        < 2 ^ 32 ∧
      (Win32.AsyncFileReader.demo.readAsync 12884901893 Win32.Kernel.demo).2.1.overlapped_.OffsetHigh
        < 2 ^ 32 ∧
      ((Win32.AsyncFileReader.demo.readAsync 12884901893
            Win32.Kernel.demo).2.1.overlapped_.OffsetHigh : Int) * 2 ^ 32
        + (Win32.AsyncFileReader.demo.readAsync 12884901893 Win32.Kernel.demo).2.1.overlapped_.Offset
        = 12884901893) ∧
    ((Win32.AsyncFileWriter.demo.writeAsync [1, 2] 2 12884901893
          Win32.Kernel.demo).2.1.overlapped_.Offset
        = (Win32.AsyncFileReader.demo.readAsync 12884901893
            Win32.Kernel.demo).2.1.overlapped_.Offset ∧
      (Win32.AsyncFileWriter.demo.writeAsync [1, 2] 2 12884901893
          Win32.Kernel.demo).2.1.overlapped_.OffsetHigh
        = (Win32.AsyncFileReader.demo.readAsync 12884901893
            Win32.Kernel.demo).2.1.overlapped_.OffsetHigh) ∧
    ((Win32.AsyncFileReader.demo.readAsync 12884901893 Win32.Kernel.demo).2.2.pending
        Win32.AsyncFileReader.demo.hFile_
      = some (Win32.Request.read Win32.AsyncFileReader.demo.buffer_
          (Win32.AsyncFileReader.demo.buffer_size_ % 2 ^ 32) (12884901893 : Int).toNat)) ∧
    ((Win32.AsyncFileWriter.demo.writeAsync [1, 2] 2 12884901893 Win32.Kernel.demo).2.2.pending
        Win32.AsyncFileWriter.demo.hFile_
      = some (Win32.Request.write [1, 2] (2 % 2 ^ 32) (12884901893 : Int).toNat)) :=
  ⟨⟨by decide, by norm_num⟩,
    (offset_encoding Win32.AsyncFileReader.demo Win32.AsyncFileWriter.demo [1, 2] 2
      Win32.Kernel.demo Win32.Kernel.demo 12884901893 (by decide) (by norm_num)).2.1,
    (offset_encoding Win32.AsyncFileReader.demo Win32.AsyncFileWriter.demo [1, 2] 2
      Win32.Kernel.demo Win32.Kernel.demo 12884901893 (by decide) (by norm_num)).2.2.1,
    ((offset_encoding Win32.AsyncFileReader.demo Win32.AsyncFileWriter.demo [1, 2] 2
      Win32.Kernel.demo Win32.Kernel.demo 12884901893 (by decide) (by norm_num)).2.2.2.1
        "a.bin" false (by decide) (by decide)).2,
    ((offset_encoding Win32.AsyncFileReader.demo Win32.AsyncFileWriter.demo [1, 2] 2
      Win32.Kernel.demo Win32.Kernel.demo 12884901893 (by decide) (by norm_num)).2.2.2.2
        "b.bin" false (by decide) (by decide)).2⟩

/-- The offset `3 * 2^32 + 5` evaluated: both classes store `Offset = 5` and
`OffsetHigh = 3`. -/
theorem offset_encoding_example :
    (Win32.AsyncFileReader.demo.readAsync 12884901893 Win32.Kernel.demo).2.1.overlapped_.Offset
        = 5 ∧
      (Win32.AsyncFileReader.demo.readAsync 12884901893
          Win32.Kernel.demo).2.1.overlapped_.OffsetHigh = 3 ∧
      (Win32.AsyncFileWriter.demo.writeAsync [1, 2] 2 12884901893
          Win32.Kernel.demo).2.1.overlapped_.Offset = 5 ∧
      (Win32.AsyncFileWriter.demo.writeAsync [1, 2] 2 12884901893
          Win32.Kernel.demo).2.1.overlapped_.OffsetHigh = 3 := by
  refine ⟨by decide, by decide, by decide, by decide⟩

end AsyncFile
